import Mathlib

/-!
Shallow embedding of the eks-login-helper CLI (src/main.go) and proofs of
the specification claims about it.

The program is a linear pipeline that orchestrates external subprocesses
(the AWS CLI and kubectl).  The embedding abstracts the outside world into
a `World` record holding the outcome of each possible subprocess call, and
standard input into a list of lines.  Every step function mirrors the
corresponding Go function and additionally returns the list of observable
`Event`s it performs (subprocess invocations, interactive prompts, the
final summary print), so that claims about which subprocesses run and
which prompts are issued can be stated and proved.
-/

namespace EKSLogin

/-- Config mirrors the Go `Config` struct (src/main.go lines 26-33). -/
structure Config where
  Profile : String
  Region : String
  Cluster : String
  Interactive : Bool
  SkipSSO : Bool
  DefaultRegion : String
deriving Repr, DecidableEq

/-- ProfileInfo mirrors the Go `ProfileInfo` struct (name, region). -/
structure ProfileInfo where
  Name : String
  Region : String
deriving Repr, DecidableEq

/-- Json values, the parse trees of syntactically valid JSON texts.  The
subprocess output string of `aws eks list-clusters` is modelled as either
such a tree (valid JSON) or as invalid. -/
inductive Json where
  | null : Json
  | bool (b : Bool) : Json
  | num (n : Int) : Json
  | str (s : String) : Json
  | arr (elems : List Json) : Json
  | obj (fields : List (String × Json)) : Json

/-- Observable events of a run: each subprocess invocation, each issuance
of an interactive prompt, and the printed summary / context lines. -/
inductive Event where
  | lookPathCheck (tool : String)
  | execListProfiles
  | execGetRegion (profile : String)
  | promptProfile (count : Nat)
  | execSts (profile : String)
  | execSsoLogin (profile : String)
  | execListClusters (profile region : String)
  | promptCluster (count : Nat)
  | execUpdateKubeconfig (region cluster profile : String)
  | execClusterInfo
  | execCurrentContext
  | printContext (ctx : String)
  | summary (profile region cluster : String)
deriving Repr, DecidableEq

/-- World holds the outcome of every external interaction the program can
perform.  `Except String String` results model the Go `Execute` helper:
`.ok out` is the trimmed stdout of a successful call and `.error e` the
message of a failed one.  For `aws eks list-clusters`, `.ok none` models a
successful call whose output is not syntactically valid JSON, and
`.ok (some j)` one whose output parses to the tree `j`. -/
structure World where
  lookPath : String → Bool
  listProfilesResult : Except String String
  getRegion : String → Except String String
  stsOk : Bool
  ssoLoginResult : Option String
  listClustersResult : Except String (Option Json)
  updateKubeconfigResult : Option String
  clusterInfo : Except String String
  currentContext : Except String String

deriving instance DecidableEq for Except

/-- isSpaceChar recognises the ASCII whitespace characters trimmed by Go
`strings.TrimSpace` on this program's inputs. -/
def isSpaceChar (c : Char) : Bool :=
  c == ' ' || c == '\t' || c == '\n' || c == '\r'

/-- trimSpace models Go `strings.TrimSpace` (for the ASCII whitespace
characters that occur in this program's inputs). -/
def trimSpace (s : String) : String :=
  ⟨((s.data.dropWhile isSpaceChar).reverse.dropWhile isSpaceChar).reverse⟩

/-- splitLinesAux accumulates the current segment (reversed) while
scanning for newline separators. -/
def splitLinesAux : List Char → List Char → List String
  | [], acc => [⟨acc.reverse⟩]
  | '\n' :: rest, acc => String.mk acc.reverse :: splitLinesAux rest []
  | c :: rest, acc => splitLinesAux rest (c :: acc)

/-- splitNewline models Go `strings.Split(s, "\n")`: the list of segments
between newline characters (a lone empty string for empty input). -/
def splitNewline (s : String) : List String := splitLinesAux s.data []

/-- digitsVal parses a non-empty all-digit character list to its value;
any other list is rejected. -/
def digitsVal (cs : List Char) : Option Nat :=
  if cs = [] then none
  else if cs.all Char.isDigit then
    some (cs.foldl (fun a ch => a * 10 + (ch.toNat - 48)) 0)
  else none

/-- atoi models Go `strconv.Atoi`: an optional sign followed by at least
one digit; anything else is an error (`none`).  Go additionally rejects
values overflowing machine int; for this program a number that large is
always out of the 1..N selection range as well, so the observable
behaviour agrees. -/
def atoi (s : String) : Option Int :=
  match s.data with
  | '+' :: rest => (digitsVal rest).map Int.ofNat
  | '-' :: rest => (digitsVal rest).map (fun n => -(n : Int))
  | _ => (digitsVal s.data).map Int.ofNat

/-- checkDeps mirrors the loop body of Go `CheckDependencies`: probe each
tool on PATH in order, failing fast on the first missing one. -/
def checkDeps (w : World) : List String → Except String Unit × List Event
  | [] => (.ok (), [])
  | d :: rest =>
    if w.lookPath d then
      ((checkDeps w rest).1, Event.lookPathCheck d :: (checkDeps w rest).2)
    else
      (.error ("required dependency '" ++ d ++ "' not found in PATH"),
       [Event.lookPathCheck d])

/-- CheckDependencies mirrors Go `CheckDependencies` (deps aws, kubectl). -/
def CheckDependencies (w : World) : Except String Unit × List Event :=
  checkDeps w ["aws", "kubectl"]

/-- regionFetch models the Go line `region, _ := app.Execute("aws",
"configure", "get", "region", "--profile", line)`: the error is discarded
and a failed call yields the empty string (Go `Execute` returns `""` on
error). -/
def regionFetch (w : World) (name : String) : String :=
  match w.getRegion name with
  | .ok r => r
  | .error _ => ""

/-- getProfilesLoop mirrors the per-line loop of Go `GetAWSProfiles`:
trim each line, skip empty ones, fetch the region (falling back to the
default region when the fetch fails or returns empty). -/
def getProfilesLoop (w : World) (defaultRegion : String) :
    List String → List ProfileInfo × List Event
  | [] => ([], [])
  | line :: rest =>
    let t := trimSpace line
    if t ≠ "" then
      let region := regionFetch w t
      let region := if region = "" then defaultRegion else region
      (ProfileInfo.mk t region :: (getProfilesLoop w defaultRegion rest).1,
       Event.execGetRegion t :: (getProfilesLoop w defaultRegion rest).2)
    else
      getProfilesLoop w defaultRegion rest

/-- GetAWSProfiles mirrors Go `GetAWSProfiles`: run
`aws configure list-profiles`, split its output on newlines, and build
the ProfileInfo list. -/
def GetAWSProfiles (w : World) (cfg : Config) :
    Except String (List ProfileInfo) × List Event :=
  match w.listProfilesResult with
  | .error e => (.error ("failed to list AWS profiles: " ++ e), [Event.execListProfiles])
  | .ok output =>
    (.ok (getProfilesLoop w cfg.DefaultRegion (splitNewline output)).1,
     Event.execListProfiles :: (getProfilesLoop w cfg.DefaultRegion (splitNewline output)).2)

/-- promptLoop mirrors the interactive selection loop shared by Go
`SelectProfile` and `SelectCluster`: print the prompt, read a line
(failing with a read error when stdin is exhausted), parse it with Atoi,
re-prompt on a parse failure or an out-of-range choice, and return the
chosen item on a choice in 1..N. -/
def promptLoop {α : Type} (items : List α) (mk : Nat → Event) :
    List String → Except String α × List String × List Event
  | [] => (.error "failed to read input: EOF", [], [mk items.length])
  | line :: rest =>
    match atoi (trimSpace line) with
    | some choice =>
      if h : 1 ≤ choice ∧ choice ≤ (items.length : Int) then
        (.ok (items.get ⟨choice.toNat - 1, by omega⟩), rest, [mk items.length])
      else
        ((promptLoop items mk rest).1, (promptLoop items mk rest).2.1,
         mk items.length :: (promptLoop items mk rest).2.2)
    | none =>
      ((promptLoop items mk rest).1, (promptLoop items mk rest).2.1,
       mk items.length :: (promptLoop items mk rest).2.2)

/-- SelectProfile mirrors Go `SelectProfile`: list the profiles, fail on
zero, auto-select a singleton, otherwise run the interactive loop; the
selected profile sets both the Profile and the Region fields. -/
def SelectProfile (w : World) (stdin : List String) (cfg : Config) :
    Except String Config × List String × List Event :=
  match (GetAWSProfiles w cfg).1 with
  | .error e => (.error e, stdin, (GetAWSProfiles w cfg).2)
  | .ok profiles =>
    match profiles with
    | [] => (.error "no AWS profiles found. Please configure AWS CLI first",
             stdin, (GetAWSProfiles w cfg).2)
    | [p] => (.ok { cfg with Profile := p.Name, Region := p.Region },
              stdin, (GetAWSProfiles w cfg).2)
    | _ :: _ :: _ =>
      match (promptLoop profiles Event.promptProfile stdin).1 with
      | .error e =>
        (.error e, (promptLoop profiles Event.promptProfile stdin).2.1,
         (GetAWSProfiles w cfg).2 ++ (promptLoop profiles Event.promptProfile stdin).2.2)
      | .ok p =>
        (.ok { cfg with Profile := p.Name, Region := p.Region },
         (promptLoop profiles Event.promptProfile stdin).2.1,
         (GetAWSProfiles w cfg).2 ++ (promptLoop profiles Event.promptProfile stdin).2.2)

/-- CheckSSOSession mirrors Go `CheckSSOSession`: one
`aws sts get-caller-identity` call; the boolean is the call's success and
the error component is literally always nil in the source. -/
def CheckSSOSession (w : World) (cfg : Config) :
    (Bool × Option String) × List Event :=
  ((w.stsOk, none), [Event.execSts cfg.Profile])

/-- LoginSSO mirrors Go `LoginSSO`: return immediately when SkipSSO is
set, otherwise spawn `aws sso login` interactively; a non-zero exit is a
fatal error. -/
def LoginSSO (w : World) (cfg : Config) : Except String Unit × List Event :=
  if cfg.SkipSSO then (.ok (), [])
  else
    match w.ssoLoginResult with
    | none => (.ok (), [Event.execSsoLogin cfg.Profile])
    | some e => (.error ("SSO login failed: " ++ e), [Event.execSsoLogin cfg.Profile])

/-- decodeStrings models Go json decoding of a JSON array into []string:
every element must be a JSON string. -/
def decodeStrings : List Json → Except String (List String)
  | [] => .ok []
  | Json.str s :: rest =>
    match decodeStrings rest with
    | .ok ss => .ok (s :: ss)
    | .error e => .error e
  | _ :: _ => .error "json: cannot unmarshal value into Go value of type string"

/-- decodeStringArray models Go json decoding of a JSON value into a
[]string field: null yields the nil slice, an array decodes elementwise,
anything else is a type error. -/
def decodeStringArray : Json → Except String (List String)
  | Json.null => .ok []
  | Json.arr xs => decodeStrings xs
  | _ => .error "json: cannot unmarshal value into Go value of type []string"

/-- lowerChar maps an ASCII upper-case letter to lower case and leaves
every other character unchanged. -/
def lowerChar (c : Char) : Char :=
  if 'A' ≤ c ∧ c ≤ 'Z' then Char.ofNat (c.toNat + 32) else c

/-- lowerAscii lower-cases the ASCII letters of a string; it models the
case folding Go json uses to match object keys against field names. -/
def lowerAscii (s : String) : String := ⟨s.data.map lowerChar⟩

/-- unmarshalFields models Go json object decoding into the
ListClustersResponse struct: keys are matched against the field tag
"clusters" case-insensitively, later duplicates overwrite earlier ones,
and non-matching keys are ignored. -/
def unmarshalFields (acc : List String) :
    List (String × Json) → Except String (List String)
  | [] => .ok acc
  | (k, v) :: rest =>
    if lowerAscii k = "clusters" then
      match decodeStringArray v with
      | .ok cs => unmarshalFields cs rest
      | .error e => .error e
    else unmarshalFields acc rest

/-- unmarshalListClusters models Go `json.Unmarshal` of a JSON value into
`ListClustersResponse` (a struct whose only field is Clusters []string
with tag "clusters"): an object decodes field by field starting from the
nil slice, null leaves the zero value, anything else is a type error. -/
def unmarshalListClusters : Json → Except String (List String)
  | Json.obj fields => unmarshalFields [] fields
  | Json.null => .ok []
  | _ => .error "json: cannot unmarshal value into Go value of type main.ListClustersResponse"

/-- ListEKSClusters mirrors Go `ListEKSClusters`: run
`aws eks list-clusters` for the configured profile and region, then
unmarshal the JSON output; both a failed call and a parse failure are
fatal. -/
def ListEKSClusters (w : World) (cfg : Config) :
    Except String (List String) × List Event :=
  match w.listClustersResult with
  | .error e =>
    (.error ("failed to list EKS clusters: " ++ e),
     [Event.execListClusters cfg.Profile cfg.Region])
  | .ok none =>
    (.error "failed to parse cluster list: invalid JSON",
     [Event.execListClusters cfg.Profile cfg.Region])
  | .ok (some j) =>
    match unmarshalListClusters j with
    | .error e =>
      (.error ("failed to parse cluster list: " ++ e),
       [Event.execListClusters cfg.Profile cfg.Region])
    | .ok cs => (.ok cs, [Event.execListClusters cfg.Profile cfg.Region])

/-- SelectCluster mirrors Go `SelectCluster`: list the clusters, fail on
zero, auto-select a singleton, otherwise run the interactive loop. -/
def SelectCluster (w : World) (stdin : List String) (cfg : Config) :
    Except String Config × List String × List Event :=
  match (ListEKSClusters w cfg).1 with
  | .error e => (.error e, stdin, (ListEKSClusters w cfg).2)
  | .ok clusters =>
    match clusters with
    | [] =>
      (.error ("no EKS clusters found in region " ++ cfg.Region ++
               " with profile " ++ cfg.Profile), stdin, (ListEKSClusters w cfg).2)
    | [c] => (.ok { cfg with Cluster := c }, stdin, (ListEKSClusters w cfg).2)
    | _ :: _ :: _ =>
      match (promptLoop clusters Event.promptCluster stdin).1 with
      | .error e =>
        (.error e, (promptLoop clusters Event.promptCluster stdin).2.1,
         (ListEKSClusters w cfg).2 ++ (promptLoop clusters Event.promptCluster stdin).2.2)
      | .ok c =>
        (.ok { cfg with Cluster := c },
         (promptLoop clusters Event.promptCluster stdin).2.1,
         (ListEKSClusters w cfg).2 ++ (promptLoop clusters Event.promptCluster stdin).2.2)

/-- UpdateKubeconfig mirrors Go `UpdateKubeconfig`: one
`aws eks update-kubeconfig --region R --name C --profile P` call; a
non-zero exit is fatal. -/
def UpdateKubeconfig (w : World) (cfg : Config) : Except String Unit × List Event :=
  match w.updateKubeconfigResult with
  | none => (.ok (), [Event.execUpdateKubeconfig cfg.Region cfg.Cluster cfg.Profile])
  | some e =>
    (.error ("failed to update kubeconfig: " ++ e),
     [Event.execUpdateKubeconfig cfg.Region cfg.Cluster cfg.Profile])

/-- VerifyConnection mirrors Go `VerifyConnection`: a failing
`kubectl cluster-info` only prints a warning and still returns nil; on
success a secondary `kubectl config current-context` call prints the
context when it succeeds and is silently ignored when it fails. -/
def VerifyConnection (w : World) (_cfg : Config) : Except String Unit × List Event :=
  match w.clusterInfo with
  | .error _ => (.ok (), [Event.execClusterInfo])
  | .ok _ =>
    match w.currentContext with
    | .ok ctx =>
      (.ok (), [Event.execClusterInfo, Event.execCurrentContext, Event.printContext ctx])
    | .error _ => (.ok (), [Event.execClusterInfo, Event.execCurrentContext])

/-- ShowSummary mirrors Go `ShowSummary`: print the resolved profile,
region and cluster. -/
def ShowSummary (cfg : Config) : List Event :=
  [Event.summary cfg.Profile cfg.Region cfg.Cluster]

/-- resolveProfileStep mirrors the guard in Go `Run`: profile resolution
runs only when the Profile field is empty. -/
def resolveProfileStep (w : World) (stdin : List String) (cfg : Config) :
    Except String Config × List String × List Event :=
  if cfg.Profile = "" then SelectProfile w stdin cfg else (.ok cfg, stdin, [])

/-- resolveClusterStep mirrors the guard in Go `Run`: cluster resolution
runs only when the Cluster field is empty. -/
def resolveClusterStep (w : World) (stdin : List String) (cfg : Config) :
    Except String Config × List String × List Event :=
  if cfg.Cluster = "" then SelectCluster w stdin cfg else (.ok cfg, stdin, [])

/-- RunResult packages the outcome of a whole run: the returned error (if
any), the final configuration, and the trace of observable events. -/
structure RunResult where
  result : Except String Unit
  config : Config
  events : List Event

/-- loginStep mirrors the session branch in Go `Run`: when the session is
valid nothing happens, otherwise `LoginSSO` runs. -/
def loginStep (w : World) (sessionValid : Bool) (cfg : Config) :
    Except String Unit × List Event :=
  if sessionValid then (.ok (), []) else LoginSSO w cfg

/-- runEvPrefix1 is the event trace accumulated through profile
resolution; the later prefixes extend it step by step, mirroring the
printed/executed order of Go `Run`. -/
def runEvPrefix1 (w : World) (stdin : List String) (cfg : Config) : List Event :=
  (CheckDependencies w).2 ++ (resolveProfileStep w stdin cfg).2.2

def runEvPrefix2 (w : World) (stdin : List String) (cfg cfg1 : Config) : List Event :=
  runEvPrefix1 w stdin cfg ++ (CheckSSOSession w cfg1).2

def runEvPrefix3 (w : World) (stdin : List String) (cfg cfg1 : Config) : List Event :=
  runEvPrefix2 w stdin cfg cfg1 ++ (loginStep w (CheckSSOSession w cfg1).1.1 cfg1).2

def runEvPrefix4 (w : World) (stdin : List String) (cfg cfg1 : Config) : List Event :=
  runEvPrefix3 w stdin cfg cfg1 ++
    (resolveClusterStep w (resolveProfileStep w stdin cfg).2.1 cfg1).2.2

def runEvPrefix5 (w : World) (stdin : List String) (cfg cfg1 cfg2 : Config) : List Event :=
  runEvPrefix4 w stdin cfg cfg1 ++ (UpdateKubeconfig w cfg2).2

/-- Run mirrors Go `Run`: dependencies, profile resolution (if needed),
session check, login (if the session is invalid), cluster resolution (if
needed), kubeconfig update, connection verification, summary. -/
def Run (w : World) (stdin : List String) (cfg : Config) : RunResult :=
  match (CheckDependencies w).1 with
  | .error e => ⟨.error e, cfg, (CheckDependencies w).2⟩
  | .ok _ =>
    match (resolveProfileStep w stdin cfg).1 with
    | .error e => ⟨.error e, cfg, runEvPrefix1 w stdin cfg⟩
    | .ok cfg1 =>
      match (CheckSSOSession w cfg1).1.2 with
      | some e =>
        ⟨.error ("failed to check SSO session: " ++ e), cfg1, runEvPrefix2 w stdin cfg cfg1⟩
      | none =>
        match (loginStep w (CheckSSOSession w cfg1).1.1 cfg1).1 with
        | .error e => ⟨.error e, cfg1, runEvPrefix3 w stdin cfg cfg1⟩
        | .ok _ =>
          match (resolveClusterStep w (resolveProfileStep w stdin cfg).2.1 cfg1).1 with
          | .error e => ⟨.error e, cfg1, runEvPrefix4 w stdin cfg cfg1⟩
          | .ok cfg2 =>
            match (UpdateKubeconfig w cfg2).1 with
            | .error e => ⟨.error e, cfg2, runEvPrefix5 w stdin cfg cfg1 cfg2⟩
            | .ok _ =>
              match (VerifyConnection w cfg2).1 with
              | .error e =>
                ⟨.error e, cfg2, runEvPrefix5 w stdin cfg cfg1 cfg2 ++ (VerifyConnection w cfg2).2⟩
              | .ok _ =>
                ⟨.ok (), cfg2,
                 runEvPrefix5 w stdin cfg cfg1 cfg2 ++ (VerifyConnection w cfg2).2 ++
                   ShowSummary cfg2⟩

/-- configFromFlags mirrors the flag wiring in Go `main`: Profile,
Region, Cluster, SkipSSO and Interactive are bound to flags (cobra
substitutes the registered default for an omitted flag: "" for profile
and cluster, the default region constant "us-west-2" for region, false
for skip-sso, true for interactive), and DefaultRegion stays at the value
set by `NewEKSLoginApp`. -/
def configFromFlags (profile region cluster : String)
    (skipSSO interactive : Bool) : Config :=
  { Profile := profile, Region := region, Cluster := cluster,
    Interactive := interactive, SkipSSO := skipSSO, DefaultRegion := "us-west-2" }

/-- mainExitCode mirrors the exit behaviour of Go `main`: 0 when Run
returns nil, 1 when it returns an error. -/
def mainExitCode (w : World) (stdin : List String) (cfg : Config) : Nat :=
  match (Run w stdin cfg).result with
  | .ok _ => 0
  | .error _ => 1

/-- validChoice restates the acceptance test of the selection loops: an
input line is accepted iff it parses with Atoi to an integer in 1..n,
and the accepted line selects the 0-based index (value - 1). -/
def validChoice (n : Nat) (line : String) : Option Nat :=
  match atoi (trimSpace line) with
  | some c => if 1 ≤ c ∧ c ≤ (n : Int) then some (c.toNat - 1) else none
  | none => none

/-- sampleWorld is a concrete environment used to instantiate the
universally quantified theorems below: two profiles (dev in us-west-2,
prod in us-east-1), a valid session, two clusters, and a kubeconfig
update that succeeds. -/
def sampleWorld : World :=
  { lookPath := fun _ => true,
    listProfilesResult := .ok "dev\nprod",
    getRegion := fun n =>
      if n = "dev" then .ok "us-west-2"
      else if n = "prod" then .ok "us-east-1"
      else .error "no region",
    stsOk := true,
    ssoLoginResult := none,
    listClustersResult :=
      .ok (some (Json.obj [("clusters", Json.arr [Json.str "alpha", Json.str "beta"])])),
    updateKubeconfigResult := none,
    clusterInfo := .ok "cluster info",
    currentContext := .error "no context" }

/-- soloProfileWorld has a single profile dev whose configured region is
eu-central-1. -/
def soloProfileWorld : World :=
  { sampleWorld with
    listProfilesResult := .ok "dev",
    getRegion := fun _ => .ok "eu-central-1" }

/-- noRegionWorld has a single profile solo whose region lookup fails. -/
def noRegionWorld : World :=
  { sampleWorld with
    listProfilesResult := .ok "solo",
    getRegion := fun _ => .error "missing" }

/-- invalidSessionWorld is sampleWorld with an expired session. -/
def invalidSessionWorld : World :=
  { sampleWorld with stsOk := false }

/-- emptyObjWorld is sampleWorld where the cluster listing returns the
JSON text of an empty object. -/
def emptyObjWorld : World :=
  { sampleWorld with listClustersResult := .ok (some (Json.obj [])) }

/-- noConnWorld is sampleWorld where kubectl cluster-info fails. -/
def noConnWorld : World :=
  { sampleWorld with clusterInfo := .error "connection refused" }

/-! Helper lemmas about lists, strings, and the individual steps. -/

theorem take_append_of_le_len {α : Type} :
    ∀ (n : Nat) (l1 l2 : List α), n ≤ l1.length → (l1 ++ l2).take n = l1.take n := by
  intro n
  induction n with
  | zero => simp
  | succ n ih =>
    intro l1 l2 h
    cases l1 with
    | nil => simp at h
    | cons a t =>
      simp only [List.cons_append, List.take_succ_cons]
      rw [ih t l2 (by simp at h; omega)]

/-- Two appends with distinguishable prefixes are distinct strings. -/
theorem string_append_ne (a b x y : String) (n : Nat)
    (ha : n ≤ a.data.length) (hb : n ≤ b.data.length)
    (h : a.data.take n ≠ b.data.take n) : a ++ x ≠ b ++ y := by
  intro he
  apply h
  have hd : (a ++ x).data = (b ++ y).data := by rw [he]
  rw [String.data_append, String.data_append] at hd
  calc a.data.take n = (a.data ++ x.data).take n := (take_append_of_le_len n _ _ ha).symm
    _ = (b.data ++ y.data).take n := by rw [hd]
    _ = b.data.take n := take_append_of_le_len n _ _ hb

/-- A string distinguishable from a prefix differs from every extension
of that prefix. -/
theorem string_ne_append (a b y : String) (n : Nat)
    (hb : n ≤ b.data.length)
    (h : a.data.take n ≠ b.data.take n) : a ≠ b ++ y := by
  intro he
  apply h
  have hd : a.data = (b ++ y).data := by rw [he]
  rw [String.data_append] at hd
  calc a.data.take n = (b.data ++ y.data).take n := by rw [hd]
    _ = b.data.take n := take_append_of_le_len n _ _ hb

theorem promptLoop_error {α : Type} (items : List α) (mk : Nat → Event) :
    ∀ (stdin : List String) (m : String),
      (promptLoop items mk stdin).1 = .error m → m = "failed to read input: EOF" := by
  intro stdin
  induction stdin with
  | nil =>
    intro m h
    simp only [promptLoop] at h
    exact (Except.error.inj h).symm
  | cons line rest ih =>
    intro m h
    simp only [promptLoop] at h
    split at h
    · split at h
      · simp at h
      · exact ih m h
    · exact ih m h

theorem promptLoop_events {α : Type} (items : List α) (mk : Nat → Event) :
    ∀ (stdin : List String), ∀ e ∈ (promptLoop items mk stdin).2.2, ∃ n, e = mk n := by
  intro stdin
  induction stdin with
  | nil =>
    intro e he
    simp only [promptLoop, List.mem_singleton] at he
    exact ⟨items.length, he⟩
  | cons line rest ih =>
    intro e he
    simp only [promptLoop] at he
    split at he
    · split at he
      · simp only [List.mem_singleton] at he
        exact ⟨items.length, he⟩
      · simp only [List.mem_cons] at he
        rcases he with he | he
        · exact ⟨items.length, he⟩
        · exact ih e he
    · simp only [List.mem_cons] at he
      rcases he with he | he
      · exact ⟨items.length, he⟩
      · exact ih e he

theorem checkDeps_events (w : World) :
    ∀ (ds : List String), ∀ e ∈ (checkDeps w ds).2, ∃ t, e = Event.lookPathCheck t := by
  intro ds
  induction ds with
  | nil => intro e he; simp [checkDeps] at he
  | cons d rest ih =>
    intro e he
    simp only [checkDeps] at he
    split at he
    · simp only [List.mem_cons] at he
      rcases he with he | he
      · exact ⟨d, he⟩
      · exact ih e he
    · simp only [List.mem_singleton] at he
      exact ⟨d, he⟩

theorem CheckDependencies_error (w : World) (m : String) :
    (CheckDependencies w).1 = .error m →
    m = "required dependency 'aws' not found in PATH" ∨
    m = "required dependency 'kubectl' not found in PATH" := by
  intro h
  simp only [CheckDependencies, checkDeps] at h
  by_cases h1 : w.lookPath "aws" = true
  · by_cases h2 : w.lookPath "kubectl" = true
    · simp [h1, h2] at h
    · simp only [h1, if_true, eq_self_iff_true] at h
      simp only [Bool.not_eq_true] at h2
      simp [h2] at h
      exact Or.inr h.symm
  · simp only [Bool.not_eq_true] at h1
    simp [h1] at h
    exact Or.inl h.symm

theorem CheckDependencies_ok (w : World)
    (h1 : w.lookPath "aws" = true) (h2 : w.lookPath "kubectl" = true) :
    CheckDependencies w =
      (.ok (), [Event.lookPathCheck "aws", Event.lookPathCheck "kubectl"]) := by
  simp [CheckDependencies, checkDeps, h1, h2]

theorem getProfilesLoop_events (w : World) (d : String) :
    ∀ (ls : List String), ∀ e ∈ (getProfilesLoop w d ls).2, ∃ p, e = Event.execGetRegion p := by
  intro ls
  induction ls with
  | nil => intro e he; simp [getProfilesLoop] at he
  | cons line rest ih =>
    intro e he
    simp only [getProfilesLoop] at he
    split at he
    · simp only [List.mem_cons] at he
      rcases he with he | he
      · exact ⟨trimSpace line, he⟩
      · exact ih e he
    · exact ih e he

theorem GetAWSProfiles_events (w : World) (cfg : Config) :
    ∀ e ∈ (GetAWSProfiles w cfg).2,
      e = Event.execListProfiles ∨ ∃ p, e = Event.execGetRegion p := by
  intro e he
  simp only [GetAWSProfiles] at he
  split at he
  · simp only [List.mem_singleton] at he
    exact Or.inl he
  · simp only [List.mem_cons] at he
    rcases he with he | he
    · exact Or.inl he
    · exact Or.inr (getProfilesLoop_events w cfg.DefaultRegion _ e he)

theorem GetAWSProfiles_error (w : World) (cfg : Config) (m : String) :
    (GetAWSProfiles w cfg).1 = .error m →
    ∃ e, m = "failed to list AWS profiles: " ++ e := by
  intro h
  simp only [GetAWSProfiles] at h
  split at h
  · next e _ => exact ⟨e, (Except.error.inj h).symm⟩
  · simp at h

theorem SelectProfile_events (w : World) (stdin : List String) (cfg : Config) :
    ∀ e ∈ (SelectProfile w stdin cfg).2.2,
      e = Event.execListProfiles ∨ (∃ p, e = Event.execGetRegion p) ∨
      ∃ n, e = Event.promptProfile n := by
  intro e he
  simp only [SelectProfile] at he
  split at he
  · rcases GetAWSProfiles_events w cfg e he with h | h
    · exact Or.inl h
    · exact Or.inr (Or.inl h)
  · split at he
    · rcases GetAWSProfiles_events w cfg e he with h | h
      · exact Or.inl h
      · exact Or.inr (Or.inl h)
    · rcases GetAWSProfiles_events w cfg e he with h | h
      · exact Or.inl h
      · exact Or.inr (Or.inl h)
    · split at he <;>
      · simp only [List.mem_append] at he
        rcases he with he | he
        · rcases GetAWSProfiles_events w cfg e he with h | h
          · exact Or.inl h
          · exact Or.inr (Or.inl h)
        · rcases promptLoop_events _ _ _ e he with ⟨n, hn⟩
          exact Or.inr (Or.inr ⟨n, hn⟩)

theorem SelectProfile_error (w : World) (stdin : List String) (cfg : Config) (m : String) :
    (SelectProfile w stdin cfg).1 = .error m →
    m = "no AWS profiles found. Please configure AWS CLI first" ∨
    (∃ e, m = "failed to list AWS profiles: " ++ e) ∨
    m = "failed to read input: EOF" := by
  intro h
  simp only [SelectProfile] at h
  split at h
  · next e heq =>
    have hm : e = m := Except.error.inj h
    subst hm
    exact Or.inr (Or.inl (GetAWSProfiles_error w cfg e heq))
  · split at h
    · exact Or.inl (Except.error.inj h).symm
    · simp at h
    · split at h
      · next e2 heq2 =>
        have hm : e2 = m := Except.error.inj h
        subst hm
        exact Or.inr (Or.inr (promptLoop_error _ Event.promptProfile stdin e2 heq2))
      · simp at h

theorem SelectProfile_ok (w : World) (stdin : List String) (cfg cfg' : Config) :
    (SelectProfile w stdin cfg).1 = .ok cfg' →
    ∃ nm rg, cfg' = { cfg with Profile := nm, Region := rg } := by
  intro h
  simp only [SelectProfile] at h
  split at h
  · simp at h
  · split at h
    · simp at h
    · exact ⟨_, _, (Except.ok.inj h).symm⟩
    · split at h
      · simp at h
      · exact ⟨_, _, (Except.ok.inj h).symm⟩

theorem resolveProfileStep_events (w : World) (stdin : List String) (cfg : Config) :
    ∀ e ∈ (resolveProfileStep w stdin cfg).2.2,
      e = Event.execListProfiles ∨ (∃ p, e = Event.execGetRegion p) ∨
      ∃ n, e = Event.promptProfile n := by
  intro e he
  simp only [resolveProfileStep] at he
  split at he
  · exact SelectProfile_events w stdin cfg e he
  · simp at he

theorem resolveProfileStep_error (w : World) (stdin : List String) (cfg : Config) (m : String) :
    (resolveProfileStep w stdin cfg).1 = .error m →
    m = "no AWS profiles found. Please configure AWS CLI first" ∨
    (∃ e, m = "failed to list AWS profiles: " ++ e) ∨
    m = "failed to read input: EOF" := by
  intro h
  simp only [resolveProfileStep] at h
  split at h
  · exact SelectProfile_error w stdin cfg m h
  · simp at h

theorem resolveProfileStep_ok (w : World) (stdin : List String) (cfg cfg' : Config) :
    (resolveProfileStep w stdin cfg).1 = .ok cfg' →
    ∃ nm rg, cfg' = { cfg with Profile := nm, Region := rg } := by
  intro h
  simp only [resolveProfileStep] at h
  split at h
  · exact SelectProfile_ok w stdin cfg cfg' h
  · exact ⟨cfg.Profile, cfg.Region, (Except.ok.inj h).symm⟩

theorem resolveProfileStep_of_nonempty (w : World) (stdin : List String) (cfg : Config)
    (h : cfg.Profile ≠ "") : resolveProfileStep w stdin cfg = (.ok cfg, stdin, []) := by
  simp [resolveProfileStep, h]

theorem ListEKSClusters_events (w : World) (cfg : Config) :
    (ListEKSClusters w cfg).2 = [Event.execListClusters cfg.Profile cfg.Region] := by
  cases h : w.listClustersResult with
  | error e => simp [ListEKSClusters, h]
  | ok oj =>
    cases oj with
    | none => simp [ListEKSClusters, h]
    | some j => cases h2 : unmarshalListClusters j <;> simp [ListEKSClusters, h, h2]

theorem ListEKSClusters_error (w : World) (cfg : Config) (m : String) :
    (ListEKSClusters w cfg).1 = .error m →
    (∃ e, m = "failed to list EKS clusters: " ++ e) ∨
    ∃ e, m = "failed to parse cluster list: " ++ e := by
  intro h
  simp only [ListEKSClusters] at h
  split at h
  · next e _ => exact Or.inl ⟨e, (Except.error.inj h).symm⟩
  · refine Or.inr ⟨"invalid JSON", ?_⟩
    have : m = "failed to parse cluster list: invalid JSON" := (Except.error.inj h).symm
    rw [this]
    decide
  · split at h
    · next e _ => exact Or.inr ⟨e, (Except.error.inj h).symm⟩
    · simp at h

theorem SelectCluster_events (w : World) (stdin : List String) (cfg : Config) :
    ∀ e ∈ (SelectCluster w stdin cfg).2.2,
      e = Event.execListClusters cfg.Profile cfg.Region ∨
      ∃ n, e = Event.promptCluster n := by
  intro e he
  simp only [SelectCluster] at he
  split at he
  · rw [ListEKSClusters_events] at he
    simp only [List.mem_singleton] at he
    exact Or.inl he
  · split at he
    · rw [ListEKSClusters_events] at he
      simp only [List.mem_singleton] at he
      exact Or.inl he
    · rw [ListEKSClusters_events] at he
      simp only [List.mem_singleton] at he
      exact Or.inl he
    · split at he <;>
      · simp only [List.mem_append] at he
        rcases he with he | he
        · rw [ListEKSClusters_events] at he
          simp only [List.mem_singleton] at he
          exact Or.inl he
        · rcases promptLoop_events _ _ _ e he with ⟨n, hn⟩
          exact Or.inr ⟨n, hn⟩

theorem SelectCluster_error (w : World) (stdin : List String) (cfg : Config) (m : String) :
    (SelectCluster w stdin cfg).1 = .error m →
    (∃ e, m = "failed to list EKS clusters: " ++ e) ∨
    (∃ e, m = "failed to parse cluster list: " ++ e) ∨
    (m = "no EKS clusters found in region " ++ cfg.Region ++
         " with profile " ++ cfg.Profile) ∨
    m = "failed to read input: EOF" := by
  intro h
  simp only [SelectCluster] at h
  split at h
  · next e heq =>
    have hm : e = m := Except.error.inj h
    subst hm
    rcases ListEKSClusters_error w cfg e heq with h1 | h1
    · exact Or.inl h1
    · exact Or.inr (Or.inl h1)
  · split at h
    · exact Or.inr (Or.inr (Or.inl (Except.error.inj h).symm))
    · simp at h
    · split at h
      · next e2 heq2 =>
        have hm : e2 = m := Except.error.inj h
        subst hm
        exact Or.inr (Or.inr (Or.inr (promptLoop_error _ Event.promptCluster stdin e2 heq2)))
      · simp at h

theorem SelectCluster_ok (w : World) (stdin : List String) (cfg cfg' : Config) :
    (SelectCluster w stdin cfg).1 = .ok cfg' →
    ∃ c, cfg' = { cfg with Cluster := c } := by
  intro h
  simp only [SelectCluster] at h
  split at h
  · simp at h
  · split at h
    · simp at h
    · exact ⟨_, (Except.ok.inj h).symm⟩
    · split at h
      · simp at h
      · exact ⟨_, (Except.ok.inj h).symm⟩

theorem resolveClusterStep_events (w : World) (stdin : List String) (cfg : Config) :
    ∀ e ∈ (resolveClusterStep w stdin cfg).2.2,
      e = Event.execListClusters cfg.Profile cfg.Region ∨
      ∃ n, e = Event.promptCluster n := by
  intro e he
  simp only [resolveClusterStep] at he
  split at he
  · exact SelectCluster_events w stdin cfg e he
  · simp at he

theorem resolveClusterStep_error (w : World) (stdin : List String) (cfg : Config) (m : String) :
    (resolveClusterStep w stdin cfg).1 = .error m →
    (∃ e, m = "failed to list EKS clusters: " ++ e) ∨
    (∃ e, m = "failed to parse cluster list: " ++ e) ∨
    (m = "no EKS clusters found in region " ++ cfg.Region ++
         " with profile " ++ cfg.Profile) ∨
    m = "failed to read input: EOF" := by
  intro h
  simp only [resolveClusterStep] at h
  split at h
  · exact SelectCluster_error w stdin cfg m h
  · simp at h

theorem resolveClusterStep_ok (w : World) (stdin : List String) (cfg cfg' : Config) :
    (resolveClusterStep w stdin cfg).1 = .ok cfg' →
    ∃ c, cfg' = { cfg with Cluster := c } := by
  intro h
  simp only [resolveClusterStep] at h
  split at h
  · exact SelectCluster_ok w stdin cfg cfg' h
  · exact ⟨cfg.Cluster, (Except.ok.inj h).symm⟩

theorem resolveClusterStep_of_nonempty (w : World) (stdin : List String) (cfg : Config)
    (h : cfg.Cluster ≠ "") : resolveClusterStep w stdin cfg = (.ok cfg, stdin, []) := by
  simp [resolveClusterStep, h]

theorem LoginSSO_events (w : World) (cfg : Config) (e : Event) :
    e ∈ (LoginSSO w cfg).2 →
    e = Event.execSsoLogin cfg.Profile ∧ cfg.SkipSSO = false := by
  intro he
  simp only [LoginSSO] at he
  split at he
  · simp at he
  · next hskip =>
    constructor
    · split at he <;> simpa using he
    · simpa using hskip

theorem LoginSSO_error (w : World) (cfg : Config) (m : String) :
    (LoginSSO w cfg).1 = .error m → ∃ e, m = "SSO login failed: " ++ e := by
  intro h
  simp only [LoginSSO] at h
  split at h
  · simp at h
  · split at h
    · simp at h
    · next e _ => exact ⟨e, (Except.error.inj h).symm⟩

theorem loginStep_events (w : World) (b : Bool) (cfg : Config) (e : Event) :
    e ∈ (loginStep w b cfg).2 →
    b = false ∧ e = Event.execSsoLogin cfg.Profile ∧ cfg.SkipSSO = false := by
  intro he
  simp only [loginStep] at he
  split at he
  · simp at he
  · next hb => exact ⟨by simpa using hb, LoginSSO_events w cfg e he⟩

theorem loginStep_error (w : World) (b : Bool) (cfg : Config) (m : String) :
    (loginStep w b cfg).1 = .error m → ∃ e, m = "SSO login failed: " ++ e := by
  intro h
  simp only [loginStep] at h
  split at h
  · simp at h
  · exact LoginSSO_error w cfg m h

theorem UpdateKubeconfig_events (w : World) (cfg : Config) :
    (UpdateKubeconfig w cfg).2 =
      [Event.execUpdateKubeconfig cfg.Region cfg.Cluster cfg.Profile] := by
  cases h : w.updateKubeconfigResult <;> simp [UpdateKubeconfig, h]

theorem UpdateKubeconfig_error (w : World) (cfg : Config) (m : String) :
    (UpdateKubeconfig w cfg).1 = .error m →
    ∃ e, m = "failed to update kubeconfig: " ++ e := by
  intro h
  simp only [UpdateKubeconfig] at h
  split at h
  · simp at h
  · next e _ => exact ⟨e, (Except.error.inj h).symm⟩

theorem UpdateKubeconfig_ok_of_none (w : World) (cfg : Config)
    (h : w.updateKubeconfigResult = none) : (UpdateKubeconfig w cfg).1 = .ok () := by
  simp [UpdateKubeconfig, h]

theorem VerifyConnection_ok (w : World) (cfg : Config) :
    (VerifyConnection w cfg).1 = .ok () := by
  cases h : w.clusterInfo with
  | error e => simp [VerifyConnection, h]
  | ok out => cases h2 : w.currentContext <;> simp [VerifyConnection, h, h2]

theorem VerifyConnection_events (w : World) (cfg : Config) :
    ∀ e ∈ (VerifyConnection w cfg).2,
      e = Event.execClusterInfo ∨ e = Event.execCurrentContext ∨
      ∃ s, e = Event.printContext s := by
  intro e he
  cases h : w.clusterInfo with
  | error e2 =>
    simp only [VerifyConnection, h, List.mem_singleton] at he
    exact Or.inl he
  | ok out =>
    cases h2 : w.currentContext with
    | ok ctx =>
      simp only [VerifyConnection, h, h2, List.mem_cons, List.mem_singleton] at he
      rcases he with he | he | he
      · exact Or.inl he
      · exact Or.inr (Or.inl he)
      · exact Or.inr (Or.inr ⟨ctx, by simpa using he⟩)
    | error e2 =>
      simp only [VerifyConnection, h, h2, List.mem_cons, List.mem_singleton] at he
      rcases he with he | he
      · exact Or.inl he
      · exact Or.inr (Or.inl (by simpa using he))

theorem Run_events_decomp (w : World) (stdin : List String) (cfg : Config) :
    ∀ e ∈ (Run w stdin cfg).events,
      e ∈ (CheckDependencies w).2 ∨
      e ∈ (resolveProfileStep w stdin cfg).2.2 ∨
      ∃ cfg1, (resolveProfileStep w stdin cfg).1 = .ok cfg1 ∧
        (e ∈ (CheckSSOSession w cfg1).2 ∨
         e ∈ (loginStep w (CheckSSOSession w cfg1).1.1 cfg1).2 ∨
         e ∈ (resolveClusterStep w (resolveProfileStep w stdin cfg).2.1 cfg1).2.2 ∨
         ∃ cfg2, (resolveClusterStep w (resolveProfileStep w stdin cfg).2.1 cfg1).1 = .ok cfg2 ∧
           (e ∈ (UpdateKubeconfig w cfg2).2 ∨ e ∈ (VerifyConnection w cfg2).2 ∨
            e ∈ ShowSummary cfg2)) := by
  intro e he
  unfold Run at he
  split at he
  · exact Or.inl he
  · split at he
    · rcases List.mem_append.mp
        (show e ∈ (CheckDependencies w).2 ++ (resolveProfileStep w stdin cfg).2.2 from he) with
        h | h
      · exact Or.inl h
      · exact Or.inr (Or.inl h)
    · next cfg1 heq1 =>
      split at he
      · next heq2 => simp [CheckSSOSession] at heq2
      · split at he
        · rcases List.mem_append.mp
            (show e ∈ ((CheckDependencies w).2 ++ (resolveProfileStep w stdin cfg).2.2 ++
              (CheckSSOSession w cfg1).2) ++
              (loginStep w (CheckSSOSession w cfg1).1.1 cfg1).2 from he) with h | h
          · rcases List.mem_append.mp h with h2 | h2
            · rcases List.mem_append.mp h2 with h3 | h3
              · exact Or.inl h3
              · exact Or.inr (Or.inl h3)
            · exact Or.inr (Or.inr ⟨cfg1, heq1, Or.inl h2⟩)
          · exact Or.inr (Or.inr ⟨cfg1, heq1, Or.inr (Or.inl h)⟩)
        · split at he
          · rcases List.mem_append.mp
              (show e ∈ ((CheckDependencies w).2 ++ (resolveProfileStep w stdin cfg).2.2 ++
                (CheckSSOSession w cfg1).2 ++
                (loginStep w (CheckSSOSession w cfg1).1.1 cfg1).2) ++
                (resolveClusterStep w (resolveProfileStep w stdin cfg).2.1 cfg1).2.2 from he) with
              h | h
            · rcases List.mem_append.mp h with h2 | h2
              · rcases List.mem_append.mp h2 with h3 | h3
                · rcases List.mem_append.mp h3 with h4 | h4
                  · exact Or.inl h4
                  · exact Or.inr (Or.inl h4)
                · exact Or.inr (Or.inr ⟨cfg1, heq1, Or.inl h3⟩)
              · exact Or.inr (Or.inr ⟨cfg1, heq1, Or.inr (Or.inl h2)⟩)
            · exact Or.inr (Or.inr ⟨cfg1, heq1, Or.inr (Or.inr (Or.inl h))⟩)
          · next cfg2 heq2 =>
            have decomp5 :
                ∀ x, x ∈ runEvPrefix5 w stdin cfg cfg1 cfg2 →
                  x ∈ (CheckDependencies w).2 ∨
                  x ∈ (resolveProfileStep w stdin cfg).2.2 ∨
                  x ∈ (CheckSSOSession w cfg1).2 ∨
                  x ∈ (loginStep w (CheckSSOSession w cfg1).1.1 cfg1).2 ∨
                  x ∈ (resolveClusterStep w (resolveProfileStep w stdin cfg).2.1 cfg1).2.2 ∨
                  x ∈ (UpdateKubeconfig w cfg2).2 := by
              intro x hx
              rcases List.mem_append.mp hx with h | h
              · rcases List.mem_append.mp h with h2 | h2
                · rcases List.mem_append.mp h2 with h3 | h3
                  · rcases List.mem_append.mp h3 with h4 | h4
                    · rcases List.mem_append.mp h4 with h5 | h5
                      · exact Or.inl h5
                      · exact Or.inr (Or.inl h5)
                    · exact Or.inr (Or.inr (Or.inl h4))
                  · exact Or.inr (Or.inr (Or.inr (Or.inl h3)))
                · exact Or.inr (Or.inr (Or.inr (Or.inr (Or.inl h2))))
              · exact Or.inr (Or.inr (Or.inr (Or.inr (Or.inr h))))
            have pack :
                ∀ x, x ∈ (CheckDependencies w).2 ∨
                  x ∈ (resolveProfileStep w stdin cfg).2.2 ∨
                  x ∈ (CheckSSOSession w cfg1).2 ∨
                  x ∈ (loginStep w (CheckSSOSession w cfg1).1.1 cfg1).2 ∨
                  x ∈ (resolveClusterStep w (resolveProfileStep w stdin cfg).2.1 cfg1).2.2 ∨
                  x ∈ (UpdateKubeconfig w cfg2).2 →
                  x ∈ (CheckDependencies w).2 ∨
                  x ∈ (resolveProfileStep w stdin cfg).2.2 ∨
                  ∃ c1, (resolveProfileStep w stdin cfg).1 = .ok c1 ∧
                    (x ∈ (CheckSSOSession w c1).2 ∨
                     x ∈ (loginStep w (CheckSSOSession w c1).1.1 c1).2 ∨
                     x ∈ (resolveClusterStep w (resolveProfileStep w stdin cfg).2.1 c1).2.2 ∨
                     ∃ c2, (resolveClusterStep w (resolveProfileStep w stdin cfg).2.1 c1).1 = .ok c2 ∧
                       (x ∈ (UpdateKubeconfig w c2).2 ∨ x ∈ (VerifyConnection w c2).2 ∨
                        x ∈ ShowSummary c2)) := by
              intro x hx
              rcases hx with h | h | h | h | h | h
              · exact Or.inl h
              · exact Or.inr (Or.inl h)
              · exact Or.inr (Or.inr ⟨cfg1, heq1, Or.inl h⟩)
              · exact Or.inr (Or.inr ⟨cfg1, heq1, Or.inr (Or.inl h)⟩)
              · exact Or.inr (Or.inr ⟨cfg1, heq1, Or.inr (Or.inr (Or.inl h))⟩)
              · exact Or.inr (Or.inr ⟨cfg1, heq1, Or.inr (Or.inr (Or.inr
                  ⟨cfg2, heq2, Or.inl h⟩))⟩)
            split at he
            · exact pack e (decomp5 e he)
            · split at he
              · rcases List.mem_append.mp
                  (show e ∈ runEvPrefix5 w stdin cfg cfg1 cfg2 ++ (VerifyConnection w cfg2).2
                    from he) with h | h
                · exact pack e (decomp5 e h)
                · exact Or.inr (Or.inr ⟨cfg1, heq1, Or.inr (Or.inr (Or.inr
                    ⟨cfg2, heq2, Or.inr (Or.inl h)⟩))⟩)
              · rcases List.mem_append.mp
                  (show e ∈ (runEvPrefix5 w stdin cfg cfg1 cfg2 ++ (VerifyConnection w cfg2).2) ++
                    ShowSummary cfg2 from he) with h | h
                · rcases List.mem_append.mp h with h2 | h2
                  · exact pack e (decomp5 e h2)
                  · exact Or.inr (Or.inr ⟨cfg1, heq1, Or.inr (Or.inr (Or.inr
                      ⟨cfg2, heq2, Or.inr (Or.inl h2)⟩))⟩)
                · exact Or.inr (Or.inr ⟨cfg1, heq1, Or.inr (Or.inr (Or.inr
                    ⟨cfg2, heq2, Or.inr (Or.inr h)⟩))⟩)

theorem Run_error_decomp (w : World) (stdin : List String) (cfg : Config) (m : String) :
    (Run w stdin cfg).result = .error m →
    (CheckDependencies w).1 = .error m ∨
    (resolveProfileStep w stdin cfg).1 = .error m ∨
    (∃ cfg1, (loginStep w (CheckSSOSession w cfg1).1.1 cfg1).1 = .error m) ∨
    (∃ cfg1, (resolveClusterStep w (resolveProfileStep w stdin cfg).2.1 cfg1).1 = .error m) ∨
    ∃ cfg2, (UpdateKubeconfig w cfg2).1 = .error m := by
  intro h
  unfold Run at h
  split at h
  · next e heq =>
    have : e = m := Except.error.inj h
    subst this
    exact Or.inl heq
  · split at h
    · next e heq =>
      have : e = m := Except.error.inj h
      subst this
      exact Or.inr (Or.inl heq)
    · next cfg1 _ =>
      split at h
      · next heq2 => simp [CheckSSOSession] at heq2
      · split at h
        · next e heq =>
          have : e = m := Except.error.inj h
          subst this
          exact Or.inr (Or.inr (Or.inl ⟨cfg1, heq⟩))
        · split at h
          · next e heq =>
            have : e = m := Except.error.inj h
            subst this
            exact Or.inr (Or.inr (Or.inr (Or.inl ⟨cfg1, heq⟩)))
          · next cfg2 _ =>
            split at h
            · next e heq =>
              have : e = m := Except.error.inj h
              subst this
              exact Or.inr (Or.inr (Or.inr (Or.inr ⟨cfg2, heq⟩)))
            · split at h
              · next e heq =>
                rw [VerifyConnection_ok w cfg2] at heq
                simp at heq
              · simp at h

theorem data_take_append (a x : String) (n : Nat) (h : n ≤ a.data.length) :
    (a ++ x).data.take n = a.data.take n := by
  rw [String.data_append]
  exact take_append_of_le_len n _ _ h

/-- The no-clusters error message never coincides with a session-check
error message, whatever the interpolated region, profile and cause. -/
theorem no_clusters_ne_session (r p e : String) :
    "no EKS clusters found in region " ++ r ++ " with profile " ++ p ≠
      "failed to check SSO session: " ++ e := by
  intro h
  have hd := congrArg String.data h
  simp only [String.data_append, List.append_assoc] at hd
  have h1 := congrArg (List.take 1) hd
  rw [take_append_of_le_len 1 _ _ (by decide),
      take_append_of_le_len 1 _ _ (by decide)] at h1
  exact absurd h1 (by decide)

theorem run_eq_dep_err (w : World) (stdin : List String) (cfg : Config) (e : String)
    (hd : (CheckDependencies w).1 = .error e) :
    Run w stdin cfg = ⟨.error e, cfg, (CheckDependencies w).2⟩ := by
  unfold Run
  simp only [hd]

theorem run_eq_profile_err (w : World) (stdin : List String) (cfg : Config) (e : String)
    (hd : (CheckDependencies w).1 = .ok ())
    (hp : (resolveProfileStep w stdin cfg).1 = .error e) :
    Run w stdin cfg = ⟨.error e, cfg, runEvPrefix1 w stdin cfg⟩ := by
  unfold Run
  simp only [hd, hp]

theorem run_eq_login_err (w : World) (stdin : List String) (cfg cfg1 : Config) (e : String)
    (hd : (CheckDependencies w).1 = .ok ())
    (hp : (resolveProfileStep w stdin cfg).1 = .ok cfg1)
    (hl : (loginStep w w.stsOk cfg1).1 = .error e) :
    Run w stdin cfg = ⟨.error e, cfg1, runEvPrefix3 w stdin cfg cfg1⟩ := by
  unfold Run
  simp only [hd, hp, CheckSSOSession, hl]

theorem run_eq_cluster_err (w : World) (stdin : List String) (cfg cfg1 : Config) (e : String)
    (hd : (CheckDependencies w).1 = .ok ())
    (hp : (resolveProfileStep w stdin cfg).1 = .ok cfg1)
    (hl : (loginStep w w.stsOk cfg1).1 = .ok ())
    (hc : (resolveClusterStep w (resolveProfileStep w stdin cfg).2.1 cfg1).1 = .error e) :
    Run w stdin cfg = ⟨.error e, cfg1, runEvPrefix4 w stdin cfg cfg1⟩ := by
  unfold Run
  simp only [hd, hp, CheckSSOSession, hl, hc]

theorem run_eq_update_err (w : World) (stdin : List String) (cfg cfg1 cfg2 : Config) (e : String)
    (hd : (CheckDependencies w).1 = .ok ())
    (hp : (resolveProfileStep w stdin cfg).1 = .ok cfg1)
    (hl : (loginStep w w.stsOk cfg1).1 = .ok ())
    (hc : (resolveClusterStep w (resolveProfileStep w stdin cfg).2.1 cfg1).1 = .ok cfg2)
    (hu : (UpdateKubeconfig w cfg2).1 = .error e) :
    Run w stdin cfg = ⟨.error e, cfg2, runEvPrefix5 w stdin cfg cfg1 cfg2⟩ := by
  unfold Run
  simp only [hd, hp, CheckSSOSession, hl, hc, hu]

theorem run_eq_success (w : World) (stdin : List String) (cfg cfg1 cfg2 : Config)
    (hd : (CheckDependencies w).1 = .ok ())
    (hp : (resolveProfileStep w stdin cfg).1 = .ok cfg1)
    (hl : (loginStep w w.stsOk cfg1).1 = .ok ())
    (hc : (resolveClusterStep w (resolveProfileStep w stdin cfg).2.1 cfg1).1 = .ok cfg2)
    (hu : (UpdateKubeconfig w cfg2).1 = .ok ()) :
    Run w stdin cfg =
      ⟨.ok (), cfg2,
       runEvPrefix5 w stdin cfg cfg1 cfg2 ++ (VerifyConnection w cfg2).2 ++
         ShowSummary cfg2⟩ := by
  unfold Run
  simp only [hd, hp, CheckSSOSession, hl, hc, hu, VerifyConnection_ok]

theorem update_not_mem_prefix1 (w : World) (stdin : List String) (cfg : Config)
    (r c p : String) : Event.execUpdateKubeconfig r c p ∉ runEvPrefix1 w stdin cfg := by
  intro h
  unfold runEvPrefix1 at h
  rcases List.mem_append.mp h with h | h
  · rcases checkDeps_events w _ _ h with ⟨t, ht⟩
    simp at ht
  · rcases resolveProfileStep_events w stdin cfg _ h with ht | ⟨q, ht⟩ | ⟨n, ht⟩ <;> simp at ht

theorem update_not_mem_prefix3 (w : World) (stdin : List String) (cfg cfg1 : Config)
    (r c p : String) : Event.execUpdateKubeconfig r c p ∉ runEvPrefix3 w stdin cfg cfg1 := by
  intro h
  unfold runEvPrefix3 runEvPrefix2 at h
  rcases List.mem_append.mp h with h | h
  · rcases List.mem_append.mp h with h | h
    · exact update_not_mem_prefix1 w stdin cfg r c p h
    · simp [CheckSSOSession] at h
  · rcases loginStep_events w _ cfg1 _ h with ⟨_, ht, _⟩
    simp at ht

theorem update_not_mem_prefix4 (w : World) (stdin : List String) (cfg cfg1 : Config)
    (r c p : String) : Event.execUpdateKubeconfig r c p ∉ runEvPrefix4 w stdin cfg cfg1 := by
  intro h
  unfold runEvPrefix4 at h
  rcases List.mem_append.mp h with h | h
  · exact update_not_mem_prefix3 w stdin cfg cfg1 r c p h
  · rcases resolveClusterStep_events w _ cfg1 _ h with ht | ⟨n, ht⟩ <;> simp at ht

/-- C6: the session-check operation never returns an error: its error
result is always nil, its boolean result is true exactly when the
identity subprocess succeeded, and consequently the fatal "failed to
check SSO session" branch in the main run sequence is unreachable. -/
theorem claim_C6 (w : World) (cfg : Config) :
    (CheckSSOSession w cfg).1.2 = none ∧
    (CheckSSOSession w cfg).1.1 = w.stsOk ∧
    ∀ (stdin : List String) (e : String),
      (Run w stdin cfg).result ≠ .error ("failed to check SSO session: " ++ e) := by
  refine ⟨rfl, rfl, ?_⟩
  intro stdin e h
  rcases Run_error_decomp w stdin cfg _ h with h1 | h1 | ⟨c1, h1⟩ | ⟨c1, h1⟩ | ⟨c2, h1⟩
  · rcases CheckDependencies_error w _ h1 with h2 | h2 <;>
      exact string_ne_append _ "failed to check SSO session: " e 1 (by decide) (by decide) h2.symm
  · rcases resolveProfileStep_error w stdin cfg _ h1 with h2 | ⟨x, h2⟩ | h2
    · exact string_ne_append _ "failed to check SSO session: " e 1 (by decide) (by decide) h2.symm
    · exact string_append_ne "failed to list AWS profiles: " "failed to check SSO session: "
        x e 11 (by decide) (by decide) (by decide) h2.symm
    · exact string_ne_append _ "failed to check SSO session: " e 11 (by decide) (by decide) h2.symm
  · rcases loginStep_error w _ c1 _ h1 with ⟨x, h2⟩
    exact string_append_ne "SSO login failed: " "failed to check SSO session: "
      x e 1 (by decide) (by decide) (by decide) h2.symm
  · rcases resolveClusterStep_error w _ c1 _ h1 with ⟨x, h2⟩ | ⟨x, h2⟩ | h2 | h2
    · exact string_append_ne "failed to list EKS clusters: " "failed to check SSO session: "
        x e 11 (by decide) (by decide) (by decide) h2.symm
    · exact string_append_ne "failed to parse cluster list: " "failed to check SSO session: "
        x e 11 (by decide) (by decide) (by decide) h2.symm
    · exact no_clusters_ne_session c1.Region c1.Profile e h2.symm
    · exact string_ne_append _ "failed to check SSO session: " e 11 (by decide) (by decide) h2.symm
  · rcases UpdateKubeconfig_error w c2 _ h1 with ⟨x, h2⟩
    exact string_append_ne "failed to update kubeconfig: " "failed to check SSO session: "
      x e 11 (by decide) (by decide) (by decide) h2.symm

/-- Witness for C6 at a concrete world and configuration. -/
theorem claim_C6_witness :
    (CheckSSOSession sampleWorld (configFromFlags "a" "us-west-2" "prod" true true)).1.2 = none ∧
    (Run sampleWorld [] (configFromFlags "a" "us-west-2" "prod" true true)).result ≠
      .error ("failed to check SSO session: " ++ "boom") :=
  ⟨(claim_C6 sampleWorld (configFromFlags "a" "us-west-2" "prod" true true)).1,
   (claim_C6 sampleWorld (configFromFlags "a" "us-west-2" "prod" true true)).2.2 [] "boom"⟩

/-- C5: the interactive login subprocess is spawned only when the
session-check subprocess exited unsuccessfully and the skip-login flag is
unset; hence with a valid session or with skip-login set the login step
is never invoked. -/
theorem claim_C5 (w : World) (stdin : List String) (cfg : Config) (p : String) :
    Event.execSsoLogin p ∈ (Run w stdin cfg).events →
    w.stsOk = false ∧ cfg.SkipSSO = false := by
  intro hp
  rcases Run_events_decomp w stdin cfg _ hp with
    h | h | ⟨cfg1, hok, h | h | h | ⟨cfg2, _, h | h | h⟩⟩
  · rcases checkDeps_events w _ _ h with ⟨t, ht⟩
    simp at ht
  · rcases resolveProfileStep_events w stdin cfg _ h with ht | ⟨q, ht⟩ | ⟨n, ht⟩ <;> simp at ht
  · simp [CheckSSOSession] at h
  · rcases loginStep_events w _ cfg1 _ h with ⟨hb, _, hskip⟩
    have hsts : w.stsOk = false := by simpa [CheckSSOSession] using hb
    rcases resolveProfileStep_ok w stdin cfg cfg1 hok with ⟨nm, rg, rfl⟩
    exact ⟨hsts, hskip⟩
  · rcases resolveClusterStep_events w _ cfg1 _ h with ht | ⟨n, ht⟩ <;> simp at ht
  · rw [UpdateKubeconfig_events] at h
    simp at h
  · rcases VerifyConnection_events w cfg2 _ h with ht | ht | ⟨s, ht⟩ <;> simp at ht
  · simp [ShowSummary] at h

/-- Witness for C5: a run with an invalid session and skip-login unset
that does spawn the login subprocess. -/
theorem claim_C5_witness :
    Event.execSsoLogin "a" ∈
      (Run invalidSessionWorld [] (configFromFlags "a" "us-west-2" "prod" false true)).events ∧
    invalidSessionWorld.stsOk = false ∧
    (configFromFlags "a" "us-west-2" "prod" false true).SkipSSO = false :=
  ⟨by decide,
   claim_C5 invalidSessionWorld [] (configFromFlags "a" "us-west-2" "prod" false true) "a"
     (by decide)⟩

/-- C7: a failing connectivity check still lets the verification step
return success; whenever the config update was invoked and succeeded the
run reaches the summary and exits 0; and on a successful connectivity
check a failure of the secondary current-context call is silently
ignored (no context line is printed and no error is returned). -/
theorem claim_C7 (w : World) (stdin : List String) (cfg : Config) :
    (∀ e, w.clusterInfo = .error e → (VerifyConnection w cfg).1 = .ok ()) ∧
    (w.updateKubeconfigResult = none →
      ∀ r c p, Event.execUpdateKubeconfig r c p ∈ (Run w stdin cfg).events →
        (Run w stdin cfg).result = .ok () ∧ mainExitCode w stdin cfg = 0 ∧
        Event.summary (Run w stdin cfg).config.Profile (Run w stdin cfg).config.Region
          (Run w stdin cfg).config.Cluster ∈ (Run w stdin cfg).events) ∧
    (∀ out e2, w.clusterInfo = .ok out → w.currentContext = .error e2 →
      VerifyConnection w cfg = (.ok (), [Event.execClusterInfo, Event.execCurrentContext])) := by
  refine ⟨fun e _ => VerifyConnection_ok w cfg, ?_, ?_⟩
  · intro hupd r c p hmem
    cases hd : (CheckDependencies w).1 with
    | error e =>
      rw [run_eq_dep_err w stdin cfg e hd] at hmem
      rcases checkDeps_events w _ _ hmem with ⟨t, ht⟩
      simp at ht
    | ok u =>
      cases u
      cases hp : (resolveProfileStep w stdin cfg).1 with
      | error e =>
        rw [run_eq_profile_err w stdin cfg e hd hp] at hmem
        exact absurd hmem (update_not_mem_prefix1 w stdin cfg r c p)
      | ok cfg1 =>
        cases hl : (loginStep w w.stsOk cfg1).1 with
        | error e =>
          rw [run_eq_login_err w stdin cfg cfg1 e hd hp hl] at hmem
          exact absurd hmem (update_not_mem_prefix3 w stdin cfg cfg1 r c p)
        | ok u =>
          cases u
          cases hc : (resolveClusterStep w (resolveProfileStep w stdin cfg).2.1 cfg1).1 with
          | error e =>
            rw [run_eq_cluster_err w stdin cfg cfg1 e hd hp hl hc] at hmem
            exact absurd hmem (update_not_mem_prefix4 w stdin cfg cfg1 r c p)
          | ok cfg2 =>
            have hu : (UpdateKubeconfig w cfg2).1 = .ok () :=
              UpdateKubeconfig_ok_of_none w cfg2 hupd
            have hrun := run_eq_success w stdin cfg cfg1 cfg2 hd hp hl hc hu
            refine ⟨by rw [hrun], ?_, ?_⟩
            · unfold mainExitCode
              rw [hrun]
            · rw [hrun]
              simp [ShowSummary]
  · intro out e2 h1 h2
    simp [VerifyConnection, h1, h2]

/-- Witness for C7: its first conjunct at a world whose connectivity
check fails, and its second and third conjuncts at sampleWorld. -/
theorem claim_C7_witness :
    (VerifyConnection noConnWorld (configFromFlags "a" "us-west-2" "prod" true true)).1 =
      .ok () ∧
    (Run sampleWorld [] (configFromFlags "a" "us-west-2" "prod" true true)).result = .ok () ∧
    VerifyConnection sampleWorld (configFromFlags "a" "us-west-2" "prod" true true) =
      (.ok (), [Event.execClusterInfo, Event.execCurrentContext]) :=
  ⟨(claim_C7 noConnWorld [] (configFromFlags "a" "us-west-2" "prod" true true)).1
      "connection refused" rfl,
   ((claim_C7 sampleWorld [] (configFromFlags "a" "us-west-2" "prod" true true)).2.1
      rfl "us-west-2" "prod" "a" (by decide)).1,
   (claim_C7 sampleWorld [] (configFromFlags "a" "us-west-2" "prod" true true)).2.2
      "cluster info" "no context" rfl rfl⟩

theorem run_no_profile_events (w : World) (stdin : List String) (cfg : Config)
    (hprof : cfg.Profile ≠ "") :
    ∀ e ∈ (Run w stdin cfg).events,
      e ≠ Event.execListProfiles ∧ ∀ n, e ≠ Event.promptProfile n := by
  intro e he
  rcases Run_events_decomp w stdin cfg _ he with
    h | h | ⟨cfg1, _, h | h | h | ⟨cfg2, _, h | h | h⟩⟩
  · rcases checkDeps_events w _ _ h with ⟨t, rfl⟩
    exact ⟨by simp, by simp⟩
  · rw [resolveProfileStep_of_nonempty w stdin cfg hprof] at h
    simp at h
  · simp only [CheckSSOSession, List.mem_singleton] at h
    subst h
    exact ⟨by simp, by simp⟩
  · rcases loginStep_events w _ cfg1 _ h with ⟨_, rfl, _⟩
    exact ⟨by simp, by simp⟩
  · rcases resolveClusterStep_events w _ cfg1 _ h with rfl | ⟨n, rfl⟩
    · exact ⟨by simp, by simp⟩
    · exact ⟨by simp, by simp⟩
  · rw [UpdateKubeconfig_events] at h
    simp only [List.mem_singleton] at h
    subst h
    exact ⟨by simp, by simp⟩
  · rcases VerifyConnection_events w cfg2 _ h with rfl | rfl | ⟨s, rfl⟩ <;>
      exact ⟨by simp, by simp⟩
  · simp only [ShowSummary, List.mem_singleton] at h
    subst h
    exact ⟨by simp, by simp⟩

theorem run_no_cluster_events (w : World) (stdin : List String) (cfg : Config)
    (hclus : cfg.Cluster ≠ "") :
    ∀ e ∈ (Run w stdin cfg).events,
      (∀ pr rg, e ≠ Event.execListClusters pr rg) ∧ ∀ n, e ≠ Event.promptCluster n := by
  intro e he
  rcases Run_events_decomp w stdin cfg _ he with
    h | h | ⟨cfg1, hok, h | h | h | ⟨cfg2, _, h | h | h⟩⟩
  · rcases checkDeps_events w _ _ h with ⟨t, rfl⟩
    exact ⟨by simp, by simp⟩
  · rcases resolveProfileStep_events w stdin cfg _ h with rfl | ⟨q, rfl⟩ | ⟨n, rfl⟩ <;>
      exact ⟨by simp, by simp⟩
  · simp only [CheckSSOSession, List.mem_singleton] at h
    subst h
    exact ⟨by simp, by simp⟩
  · rcases loginStep_events w _ cfg1 _ h with ⟨_, rfl, _⟩
    exact ⟨by simp, by simp⟩
  · rcases resolveProfileStep_ok w stdin cfg cfg1 hok with ⟨nm, rg, rfl⟩
    rw [resolveClusterStep_of_nonempty w _ _
      (show ({ cfg with Profile := nm, Region := rg } : Config).Cluster ≠ "" from hclus)] at h
    simp at h
  · rw [UpdateKubeconfig_events] at h
    simp only [List.mem_singleton] at h
    subst h
    exact ⟨by simp, by simp⟩
  · rcases VerifyConnection_events w cfg2 _ h with rfl | rfl | ⟨s, rfl⟩ <;>
      exact ⟨by simp, by simp⟩
  · simp only [ShowSummary, List.mem_singleton] at h
    subst h
    exact ⟨by simp, by simp⟩

/-- C2 counterexample: with the profile flag left empty, the region flag
at its (non-empty) default "us-west-2", and a single discovered profile
dev whose configured region is eu-central-1, profile resolution
overwrites the non-empty region field. -/
theorem claim_C2_counterexample :
    (configFromFlags "" "us-west-2" "" false true).Region ≠ "" ∧
    (SelectProfile soloProfileWorld [] (configFromFlags "" "us-west-2" "" false true)).1 =
      .ok { configFromFlags "" "us-west-2" "" false true with
            Profile := "dev", Region := "eu-central-1" } ∧
    ("eu-central-1" : String) ≠ "us-west-2" :=
  ⟨by decide, by decide, by decide⟩

/-- C2 (amended): each resolver step runs only when its own primary
field (profile for profile resolution, cluster for cluster resolution)
was left empty by the flags; when profile resolution runs it sets both
the profile and the region field, overwriting even a non-empty region;
consequently the region field is left unchanged whenever the profile
flag was supplied (non-empty), and the cluster field whenever the
cluster flag was supplied. -/
theorem claim_C2_amended (w : World) (stdin : List String) (cfg : Config) :
    (cfg.Profile ≠ "" →
      (Run w stdin cfg).config.Region = cfg.Region ∧
      (Run w stdin cfg).config.Profile = cfg.Profile ∧
      Event.execListProfiles ∉ (Run w stdin cfg).events ∧
      ∀ n, Event.promptProfile n ∉ (Run w stdin cfg).events) ∧
    (cfg.Cluster ≠ "" →
      (Run w stdin cfg).config.Cluster = cfg.Cluster ∧
      (∀ pr rg, Event.execListClusters pr rg ∉ (Run w stdin cfg).events) ∧
      ∀ n, Event.promptCluster n ∉ (Run w stdin cfg).events) := by
  constructor
  · intro hprof
    have hfields :
        (Run w stdin cfg).config.Region = cfg.Region ∧
        (Run w stdin cfg).config.Profile = cfg.Profile := by
      have hp1 : (resolveProfileStep w stdin cfg).1 = .ok cfg := by
        rw [resolveProfileStep_of_nonempty w stdin cfg hprof]
      cases hd : (CheckDependencies w).1 with
      | error e => rw [run_eq_dep_err w stdin cfg e hd]; exact ⟨rfl, rfl⟩
      | ok u =>
        cases u
        cases hl : (loginStep w w.stsOk cfg).1 with
        | error e => rw [run_eq_login_err w stdin cfg cfg e hd hp1 hl]; exact ⟨rfl, rfl⟩
        | ok u =>
          cases u
          cases hc : (resolveClusterStep w (resolveProfileStep w stdin cfg).2.1 cfg).1 with
          | error e => rw [run_eq_cluster_err w stdin cfg cfg e hd hp1 hl hc]; exact ⟨rfl, rfl⟩
          | ok cfg2 =>
            rcases resolveClusterStep_ok w _ cfg cfg2 hc with ⟨c, rfl⟩
            cases hu : (UpdateKubeconfig w { cfg with Cluster := c }).1 with
            | error e =>
              rw [run_eq_update_err w stdin cfg cfg { cfg with Cluster := c } e hd hp1 hl hc hu]
              exact ⟨rfl, rfl⟩
            | ok u =>
              cases u
              rw [run_eq_success w stdin cfg cfg { cfg with Cluster := c } hd hp1 hl hc hu]
              exact ⟨rfl, rfl⟩
    refine ⟨hfields.1, hfields.2, ?_, ?_⟩
    · intro hmem
      exact absurd rfl (run_no_profile_events w stdin cfg hprof _ hmem).1
    · intro n hmem
      exact absurd rfl ((run_no_profile_events w stdin cfg hprof _ hmem).2 n)
  · intro hclus
    have hfield : (Run w stdin cfg).config.Cluster = cfg.Cluster := by
      cases hd : (CheckDependencies w).1 with
      | error e => rw [run_eq_dep_err w stdin cfg e hd]
      | ok u =>
        cases u
        cases hp : (resolveProfileStep w stdin cfg).1 with
        | error e => rw [run_eq_profile_err w stdin cfg e hd hp]
        | ok cfg1 =>
          rcases resolveProfileStep_ok w stdin cfg cfg1 hp with ⟨nm, rg, rfl⟩
          have hc1 :
              (resolveClusterStep w (resolveProfileStep w stdin cfg).2.1
                { cfg with Profile := nm, Region := rg }).1 =
              .ok { cfg with Profile := nm, Region := rg } := by
            rw [resolveClusterStep_of_nonempty w _ _
              (show ({ cfg with Profile := nm, Region := rg } : Config).Cluster ≠ "" from hclus)]
          cases hl : (loginStep w w.stsOk { cfg with Profile := nm, Region := rg }).1 with
          | error e => rw [run_eq_login_err w stdin cfg _ e hd hp hl]
          | ok u =>
            cases u
            cases hu : (UpdateKubeconfig w { cfg with Profile := nm, Region := rg }).1 with
            | error e => rw [run_eq_update_err w stdin cfg _ _ e hd hp hl hc1 hu]
            | ok u =>
              cases u
              rw [run_eq_success w stdin cfg _ _ hd hp hl hc1 hu]
    refine ⟨hfield, ?_, ?_⟩
    · intro pr rg hmem
      exact absurd rfl ((run_no_cluster_events w stdin cfg hclus _ hmem).1 pr rg)
    · intro n hmem
      exact absurd rfl ((run_no_cluster_events w stdin cfg hclus _ hmem).2 n)

/-- Witness for the amended C2 at a concrete run with both flags
supplied. -/
theorem claim_C2_amended_witness :
    (Run sampleWorld [] (configFromFlags "a" "us-west-2" "prod" true true)).config.Region =
      "us-west-2" ∧
    (Run sampleWorld [] (configFromFlags "a" "us-west-2" "prod" true true)).config.Cluster =
      "prod" :=
  ⟨((claim_C2_amended sampleWorld [] (configFromFlags "a" "us-west-2" "prod" true true)).1
      (by decide)).1,
   ((claim_C2_amended sampleWorld [] (configFromFlags "a" "us-west-2" "prod" true true)).2
      (by decide)).1⟩

theorem run_all_flags (w : World) (stdin : List String) (cfg : Config)
    (hprof : cfg.Profile ≠ "") (hclus : cfg.Cluster ≠ "") (hskip : cfg.SkipSSO = true)
    (hd1 : w.lookPath "aws" = true) (hd2 : w.lookPath "kubectl" = true)
    (hupd : w.updateKubeconfigResult = none) :
    Run w stdin cfg =
      ⟨.ok (), cfg,
       [Event.lookPathCheck "aws", Event.lookPathCheck "kubectl", Event.execSts cfg.Profile,
        Event.execUpdateKubeconfig cfg.Region cfg.Cluster cfg.Profile] ++
         (VerifyConnection w cfg).2 ++ [Event.summary cfg.Profile cfg.Region cfg.Cluster]⟩ := by
  have hdep := CheckDependencies_ok w hd1 hd2
  have hd : (CheckDependencies w).1 = .ok () := by rw [hdep]
  have hp := resolveProfileStep_of_nonempty w stdin cfg hprof
  have hp1 : (resolveProfileStep w stdin cfg).1 = .ok cfg := by rw [hp]
  have hl : (loginStep w w.stsOk cfg).1 = .ok () := by
    cases hsts : w.stsOk <;> simp [loginStep, LoginSSO, hskip]
  have hlev : (loginStep w w.stsOk cfg).2 = [] := by
    cases hsts : w.stsOk <;> simp [loginStep, LoginSSO, hskip]
  have hc := resolveClusterStep_of_nonempty w (resolveProfileStep w stdin cfg).2.1 cfg hclus
  have hc1 : (resolveClusterStep w (resolveProfileStep w stdin cfg).2.1 cfg).1 = .ok cfg := by
    rw [hc]
  have hu : (UpdateKubeconfig w cfg).1 = .ok () := UpdateKubeconfig_ok_of_none w cfg hupd
  rw [run_eq_success w stdin cfg cfg cfg hd hp1 hl hc1 hu]
  simp [runEvPrefix5, runEvPrefix4, runEvPrefix3, runEvPrefix2, runEvPrefix1,
    hdep, hp, hc, resolveClusterStep_of_nonempty w stdin cfg hclus, hlev,
    CheckSSOSession, UpdateKubeconfig_events, ShowSummary]

/-- C1: with profile a, cluster prod, skip-login set and region left at
its default us-west-2, a run issues no profile prompt, no cluster
prompt and no login subprocess; the config update is invoked exactly
with region us-west-2, cluster prod, profile a; and the printed summary
carries exactly those three values. -/
theorem claim_C1 (w : World) (stdin : List String)
    (hd1 : w.lookPath "aws" = true) (hd2 : w.lookPath "kubectl" = true)
    (hupd : w.updateKubeconfigResult = none) :
    (∀ n, Event.promptProfile n ∉
      (Run w stdin (configFromFlags "a" "us-west-2" "prod" true true)).events) ∧
    (∀ n, Event.promptCluster n ∉
      (Run w stdin (configFromFlags "a" "us-west-2" "prod" true true)).events) ∧
    (∀ p, Event.execSsoLogin p ∉
      (Run w stdin (configFromFlags "a" "us-west-2" "prod" true true)).events) ∧
    (∀ r c p, Event.execUpdateKubeconfig r c p ∈
        (Run w stdin (configFromFlags "a" "us-west-2" "prod" true true)).events ↔
      r = "us-west-2" ∧ c = "prod" ∧ p = "a") ∧
    (∀ p r c, Event.summary p r c ∈
        (Run w stdin (configFromFlags "a" "us-west-2" "prod" true true)).events ↔
      p = "a" ∧ r = "us-west-2" ∧ c = "prod") := by
  rw [run_all_flags w stdin (configFromFlags "a" "us-west-2" "prod" true true)
    (by decide) (by decide) rfl hd1 hd2 hupd]
  refine ⟨?_, ?_, ?_, ?_, ?_⟩
  · intro n hmem
    simp only [List.mem_append, List.mem_cons, List.mem_singleton] at hmem
    rcases hmem with ((h | h | h | h | h) | h) | h
    · simp at h
    · simp at h
    · simp at h
    · simp at h
    · simp at h
    · rcases VerifyConnection_events w _ _ h with h2 | h2 | ⟨s, h2⟩ <;> simp at h2
    · simp at h
  · intro n hmem
    simp only [List.mem_append, List.mem_cons, List.mem_singleton] at hmem
    rcases hmem with ((h | h | h | h | h) | h) | h
    · simp at h
    · simp at h
    · simp at h
    · simp at h
    · simp at h
    · rcases VerifyConnection_events w _ _ h with h2 | h2 | ⟨s, h2⟩ <;> simp at h2
    · simp at h
  · intro p hmem
    simp only [List.mem_append, List.mem_cons, List.mem_singleton] at hmem
    rcases hmem with ((h | h | h | h | h) | h) | h
    · simp at h
    · simp at h
    · simp at h
    · simp at h
    · simp at h
    · rcases VerifyConnection_events w _ _ h with h2 | h2 | ⟨s, h2⟩ <;> simp at h2
    · simp at h
  · intro r c p
    constructor
    · intro hmem
      simp only [List.mem_append, List.mem_cons, List.mem_singleton] at hmem
      rcases hmem with ((h | h | h | h | h) | h) | h
      · simp at h
      · simp at h
      · simp at h
      · simp [configFromFlags] at h
        exact h
      · simp at h
      · rcases VerifyConnection_events w _ _ h with h2 | h2 | ⟨s, h2⟩ <;> simp at h2
      · simp at h
    · rintro ⟨rfl, rfl, rfl⟩
      simp [configFromFlags]
  · intro p r c
    constructor
    · intro hmem
      simp only [List.mem_append, List.mem_cons, List.mem_singleton] at hmem
      rcases hmem with ((h | h | h | h | h) | h) | h
      · simp at h
      · simp at h
      · simp at h
      · simp at h
      · simp at h
      · rcases VerifyConnection_events w _ _ h with h2 | h2 | ⟨s, h2⟩ <;> simp at h2
      · simp [configFromFlags] at h
        exact h
    · rintro ⟨rfl, rfl, rfl⟩
      simp [configFromFlags]

theorem promptLoop_two {α : Type} (items : List α) (mk : Nat → Event) (rest : List String)
    (p : α) (hp : items[1]? = some p) :
    promptLoop items mk ("2" :: rest) = (.ok p, rest, [mk items.length]) := by
  rcases List.getElem?_eq_some.mp hp with ⟨hlen, hget⟩
  unfold promptLoop
  have ha : atoi (trimSpace "2") = some 2 := by decide
  rw [ha]
  dsimp only
  rw [dif_pos (⟨by omega, by exact_mod_cast Nat.succ_le_of_lt hlen⟩ :
    1 ≤ (2 : Int) ∧ (2 : Int) ≤ (items.length : Int))]
  simp [hget]

/-- Witness for C1 at sampleWorld. -/
theorem claim_C1_witness :
    (∀ n, Event.promptProfile n ∉
      (Run sampleWorld [] (configFromFlags "a" "us-west-2" "prod" true true)).events) ∧
    Event.execUpdateKubeconfig "us-west-2" "prod" "a" ∈
      (Run sampleWorld [] (configFromFlags "a" "us-west-2" "prod" true true)).events ∧
    Event.summary "a" "us-west-2" "prod" ∈
      (Run sampleWorld [] (configFromFlags "a" "us-west-2" "prod" true true)).events :=
  ⟨(claim_C1 sampleWorld [] rfl rfl rfl).1,
   ((claim_C1 sampleWorld [] rfl rfl rfl).2.2.2.1 "us-west-2" "prod" "a").mpr ⟨rfl, rfl, rfl⟩,
   ((claim_C1 sampleWorld [] rfl rfl rfl).2.2.2.2 "a" "us-west-2" "prod").mpr ⟨rfl, rfl, rfl⟩⟩

/-- C3: for the discovered profile list and, identically, the discovered
cluster list: an empty list is a fatal error; a singleton is selected
with no prompt; with two or more entries a prompt is issued and the
input "2" selects the second entry. -/
theorem claim_C3 (w : World) (cfg : Config) (stdin : List String)
    (ps : List ProfileInfo) (evp : List Event) (cs : List String) (evc : List Event)
    (hgp : GetAWSProfiles w cfg = (.ok ps, evp))
    (hlc : ListEKSClusters w cfg = (.ok cs, evc)) :
    ((ps = [] → (SelectProfile w stdin cfg).1 =
        .error "no AWS profiles found. Please configure AWS CLI first") ∧
     (∀ p, ps = [p] →
        SelectProfile w stdin cfg =
          (.ok { cfg with Profile := p.Name, Region := p.Region }, stdin, evp) ∧
        ∀ n, Event.promptProfile n ∉ evp) ∧
     (∀ p rest, ps[1]? = some p →
        SelectProfile w ("2" :: rest) cfg =
          (.ok { cfg with Profile := p.Name, Region := p.Region }, rest,
           evp ++ [Event.promptProfile ps.length]))) ∧
    ((cs = [] → (SelectCluster w stdin cfg).1 =
        .error ("no EKS clusters found in region " ++ cfg.Region ++
                " with profile " ++ cfg.Profile)) ∧
     (∀ c, cs = [c] →
        SelectCluster w stdin cfg = (.ok { cfg with Cluster := c }, stdin, evc) ∧
        ∀ n, Event.promptCluster n ∉ evc) ∧
     (∀ c rest, cs[1]? = some c →
        SelectCluster w ("2" :: rest) cfg =
          (.ok { cfg with Cluster := c }, rest,
           evc ++ [Event.promptCluster cs.length]))) := by
  have hgp1 : (GetAWSProfiles w cfg).1 = .ok ps := by rw [hgp]
  have hgp2 : (GetAWSProfiles w cfg).2 = evp := by rw [hgp]
  have hlc1 : (ListEKSClusters w cfg).1 = .ok cs := by rw [hlc]
  have hlc2 : (ListEKSClusters w cfg).2 = evc := by rw [hlc]
  refine ⟨⟨?_, ?_, ?_⟩, ?_, ?_, ?_⟩
  · rintro rfl
    simp [SelectProfile, hgp1]
  · rintro p rfl
    refine ⟨by simp [SelectProfile, hgp1, hgp2], ?_⟩
    intro n hmem
    rw [← hgp2] at hmem
    rcases GetAWSProfiles_events w cfg _ hmem with h | ⟨q, h⟩ <;> simp at h
  · intro p rest h1
    match ps, h1 with
    | a :: b :: t, h1 =>
      have hb : b = p := by simpa using h1
      subst hb
      simp only [SelectProfile, hgp1, hgp2]
      rw [promptLoop_two (a :: b :: t) Event.promptProfile rest b h1]
  · rintro rfl
    simp [SelectCluster, hlc1]
  · rintro c rfl
    refine ⟨by simp [SelectCluster, hlc1, hlc2], ?_⟩
    intro n hmem
    rw [← hlc2] at hmem
    rw [ListEKSClusters_events] at hmem
    simp at hmem
  · intro c rest h1
    match cs, h1 with
    | a :: b :: t, h1 =>
      have hb : b = c := by simpa using h1
      subst hb
      simp only [SelectCluster, hlc1, hlc2]
      rw [promptLoop_two (a :: b :: t) Event.promptCluster rest b h1]

/-- Witness for C3 at sampleWorld: the input "2" selects the second of
the two discovered profiles and the second of the two discovered
clusters. -/
theorem claim_C3_witness :
    SelectProfile sampleWorld ["2"] (configFromFlags "" "us-west-2" "" false true) =
      (.ok { configFromFlags "" "us-west-2" "" false true with
             Profile := "prod", Region := "us-east-1" }, [],
       [Event.execListProfiles, Event.execGetRegion "dev", Event.execGetRegion "prod"] ++
         [Event.promptProfile 2]) ∧
    SelectCluster sampleWorld ["2"] (configFromFlags "" "us-west-2" "" false true) =
      (.ok { configFromFlags "" "us-west-2" "" false true with Cluster := "beta" }, [],
       [Event.execListClusters "" "us-west-2"] ++ [Event.promptCluster 2]) :=
  ⟨((claim_C3 sampleWorld (configFromFlags "" "us-west-2" "" false true) []
      [ProfileInfo.mk "dev" "us-west-2", ProfileInfo.mk "prod" "us-east-1"]
      [Event.execListProfiles, Event.execGetRegion "dev", Event.execGetRegion "prod"]
      ["alpha", "beta"] [Event.execListClusters "" "us-west-2"]
      (by decide) (by decide)).1.2.2 (ProfileInfo.mk "prod" "us-east-1") [] (by decide)),
   ((claim_C3 sampleWorld (configFromFlags "" "us-west-2" "" false true) []
      [ProfileInfo.mk "dev" "us-west-2", ProfileInfo.mk "prod" "us-east-1"]
      [Event.execListProfiles, Event.execGetRegion "dev", Event.execGetRegion "prod"]
      ["alpha", "beta"] [Event.execListClusters "" "us-west-2"]
      (by decide) (by decide)).2.2.2 "beta" [] (by decide))⟩

theorem promptLoop_accept {α : Type} (items : List α) (mk : Nat → Event)
    (line : String) (rest : List String) (i : Nat) (it : α)
    (hv : validChoice items.length line = some i) (hit : items[i]? = some it) :
    promptLoop items mk (line :: rest) = (.ok it, rest, [mk items.length]) := by
  unfold validChoice at hv
  cases hat : atoi (trimSpace line) with
  | none => rw [hat] at hv; simp at hv
  | some c =>
    rw [hat] at hv
    dsimp only at hv
    split at hv
    · next hcond =>
      have hi : c.toNat - 1 = i := by simpa using hv
      subst hi
      rcases List.getElem?_eq_some.mp hit with ⟨hlen, hget⟩
      unfold promptLoop
      rw [hat]
      dsimp only
      rw [dif_pos hcond]
      simp [List.get_eq_getElem, hget]
    · simp at hv

theorem promptLoop_reject {α : Type} (items : List α) (mk : Nat → Event)
    (line : String) (rest : List String)
    (hv : validChoice items.length line = none) :
    promptLoop items mk (line :: rest) =
      ((promptLoop items mk rest).1, (promptLoop items mk rest).2.1,
       mk items.length :: (promptLoop items mk rest).2.2) := by
  unfold validChoice at hv
  cases hat : atoi (trimSpace line) with
  | none =>
    simp only [promptLoop, hat]
  | some c =>
    rw [hat] at hv
    dsimp only at hv
    split at hv
    · simp at hv
    · next hcond =>
      simp only [promptLoop, hat]
      rw [dif_neg hcond]

/-- C4: in an interactive selection over the listed items, every invalid
input line (non-numeric, zero, negative, or above the item count) leaves
the outcome untouched apart from one more prompt issuance and produces
no error; the loop ends exactly at the first line holding an integer in
1..N, selecting that item, and with no valid line it only ever
re-prompts until input is exhausted. -/
theorem claim_C4 {α : Type} (items : List α) (mk : Nat → Event) :
    (∀ (pre : List String) (line : String) (rest : List String) (i : Nat) (it : α),
       (∀ x ∈ pre, validChoice items.length x = none) →
       validChoice items.length line = some i →
       items[i]? = some it →
       promptLoop items mk (pre ++ line :: rest) =
         (.ok it, rest, List.replicate (pre.length + 1) (mk items.length))) ∧
    (∀ ins : List String, (∀ x ∈ ins, validChoice items.length x = none) →
       promptLoop items mk ins =
         (.error "failed to read input: EOF", [],
          List.replicate (ins.length + 1) (mk items.length))) := by
  constructor
  · intro pre
    induction pre with
    | nil =>
      intro line rest i it _ hv hit
      simpa using promptLoop_accept items mk line rest i it hv hit
    | cons x pre ih =>
      intro line rest i it hall hv hit
      have hx : validChoice items.length x = none := hall x (by simp)
      have hrec := ih line rest i it (fun y hy => hall y (by simp [hy])) hv hit
      rw [List.cons_append, promptLoop_reject items mk x _ hx, hrec]
      simp [List.replicate_succ]
  · intro ins
    induction ins with
    | nil =>
      intro _
      simp [promptLoop, List.replicate]
    | cons x ins ih =>
      intro hall
      have hx : validChoice items.length x = none := hall x (by simp)
      rw [promptLoop_reject items mk x ins hx, ih (fun y hy => hall y (by simp [hy]))]
      simp [List.replicate_succ]

/-- Witness for C4: over three items, the inputs x, 0 and 7 are each
rejected with a re-prompt and the following input 2 selects the second
item. -/
theorem claim_C4_witness :
    promptLoop ["a", "b", "c"] Event.promptCluster (["x", "0", "7"] ++ ["2"] ++ []) =
      (.ok "b", [], List.replicate 4 (Event.promptCluster 3)) ∧
    promptLoop ["a", "b", "c"] Event.promptCluster ["x", "-1"] =
      (.error "failed to read input: EOF", [], List.replicate 3 (Event.promptCluster 3)) :=
  ⟨(claim_C4 ["a", "b", "c"] Event.promptCluster).1 ["x", "0", "7"] "2" [] 1 "b"
     (by decide) (by decide) (by decide),
   (claim_C4 ["a", "b", "c"] Event.promptCluster).2 ["x", "-1"] (by decide)⟩

theorem getProfilesLoop_default (w : World) (d : String) :
    ∀ (ls : List String) (line : String), line ∈ ls → trimSpace line ≠ "" →
      regionFetch w (trimSpace line) = "" →
      ProfileInfo.mk (trimSpace line) d ∈ (getProfilesLoop w d ls).1 := by
  intro ls
  induction ls with
  | nil => intro line h; simp at h
  | cons l rest ih =>
    intro line hmem ht hr
    rcases List.mem_cons.mp hmem with rfl | hmem
    · simp only [getProfilesLoop]
      rw [if_pos ht]
      simp only [hr, if_pos rfl]
      exact List.mem_cons_self _ _
    · simp only [getProfilesLoop]
      split
      · exact List.mem_cons_of_mem _ (ih line hmem ht hr)
      · exact ih line hmem ht hr

/-- C8: every non-empty listed profile name whose region lookup fails or
comes back empty is recorded with the fixed default region us-west-2;
and with profiles dev and prod in regions us-west-2 and us-east-1, the
input "1" resolves profile dev with region us-west-2. -/
theorem claim_C8 :
    (∀ (w : World) (cfg : Config) (out line : String),
       w.listProfilesResult = .ok out → line ∈ splitNewline out →
       trimSpace line ≠ "" →
       ((∃ e, w.getRegion (trimSpace line) = .error e) ∨
        w.getRegion (trimSpace line) = .ok "") →
       ∃ ps, (GetAWSProfiles w cfg).1 = .ok ps ∧
         ProfileInfo.mk (trimSpace line) cfg.DefaultRegion ∈ ps) ∧
    (∀ p r c s i, (configFromFlags p r c s i).DefaultRegion = "us-west-2") ∧
    SelectProfile sampleWorld ["1"] (configFromFlags "" "us-west-2" "" false true) =
      (.ok { configFromFlags "" "us-west-2" "" false true with
             Profile := "dev", Region := "us-west-2" }, [],
       [Event.execListProfiles, Event.execGetRegion "dev", Event.execGetRegion "prod",
        Event.promptProfile 2]) := by
  refine ⟨?_, fun p r c s i => rfl, by decide⟩
  intro w cfg out line hout hmem ht hreg
  have hrf : regionFetch w (trimSpace line) = "" := by
    rcases hreg with ⟨e, he⟩ | he <;> simp [regionFetch, he]
  refine ⟨(getProfilesLoop w cfg.DefaultRegion (splitNewline out)).1, ?_, ?_⟩
  · simp [GetAWSProfiles, hout]
  · exact getProfilesLoop_default w cfg.DefaultRegion (splitNewline out) line hmem ht hrf

/-- Witness for C8: a profile solo whose region lookup fails is recorded
with region us-west-2. -/
theorem claim_C8_witness :
    ∃ ps, (GetAWSProfiles noRegionWorld (configFromFlags "" "us-west-2" "" false true)).1 =
        .ok ps ∧
      ProfileInfo.mk (trimSpace "solo")
        (configFromFlags "" "us-west-2" "" false true).DefaultRegion ∈ ps :=
  claim_C8.1 noRegionWorld (configFromFlags "" "us-west-2" "" false true) "solo" "solo"
    rfl (by decide) (by decide) (Or.inl ⟨"missing", rfl⟩)

theorem unmarshalFields_no_key (acc : List String) :
    ∀ (fields : List (String × Json)),
      (∀ k v, (k, v) ∈ fields → lowerAscii k ≠ "clusters") →
      unmarshalFields acc fields = .ok acc := by
  intro fields
  induction fields with
  | nil => intro _; rfl
  | cons kv rest ih =>
    intro h
    rcases kv with ⟨k, v⟩
    simp only [unmarshalFields]
    rw [if_neg (h k v (by simp))]
    exact ih fun k2 v2 hm => h k2 v2 (by simp [hm])

/-- C10: syntactically valid JSON lacking a key matching "clusters" (for
example the empty object) unmarshals successfully to an empty cluster
list, so the run fails with the no-clusters fatal error rather than a
parse error. -/
theorem claim_C10 (w : World) (cfg : Config) (stdin : List String)
    (fields : List (String × Json))
    (hf : ∀ k v, (k, v) ∈ fields → lowerAscii k ≠ "clusters") :
    unmarshalListClusters (Json.obj fields) = .ok [] ∧
    (w.listClustersResult = .ok (some (Json.obj fields)) →
      ListEKSClusters w cfg = (.ok [], [Event.execListClusters cfg.Profile cfg.Region]) ∧
      (SelectCluster w stdin cfg).1 =
        .error ("no EKS clusters found in region " ++ cfg.Region ++
                " with profile " ++ cfg.Profile)) := by
  have hm : unmarshalListClusters (Json.obj fields) = .ok [] :=
    unmarshalFields_no_key [] fields hf
  refine ⟨hm, ?_⟩
  intro hw
  have hlist : ListEKSClusters w cfg =
      (.ok [], [Event.execListClusters cfg.Profile cfg.Region]) := by
    simp [ListEKSClusters, hw, hm]
  refine ⟨hlist, ?_⟩
  have hlist1 : (ListEKSClusters w cfg).1 = .ok [] := by rw [hlist]
  simp [SelectCluster, hlist1]

/-- Witness for C10: the empty JSON object parses to an empty cluster
list and the run fails with the no-clusters error. -/
theorem claim_C10_witness :
    unmarshalListClusters (Json.obj []) = .ok [] ∧
    (SelectCluster emptyObjWorld [] (configFromFlags "a" "us-west-2" "" false true)).1 =
      .error ("no EKS clusters found in region " ++ "us-west-2" ++
              " with profile " ++ "a") :=
  ⟨(claim_C10 emptyObjWorld (configFromFlags "a" "us-west-2" "" false true) [] []
      (by simp)).1,
   ((claim_C10 emptyObjWorld (configFromFlags "a" "us-west-2" "" false true) [] []
      (by simp)).2 rfl).2⟩

theorem SelectProfile_interactive (w : World) (stdin : List String) (cfg : Config) (b : Bool) :
    SelectProfile w stdin { cfg with Interactive := b } =
      ((SelectProfile w stdin cfg).1.map (fun c => { c with Interactive := b }),
       (SelectProfile w stdin cfg).2.1, (SelectProfile w stdin cfg).2.2) := by
  have hev : (GetAWSProfiles w { cfg with Interactive := b }).2 =
      (GetAWSProfiles w cfg).2 := rfl
  cases heq : (GetAWSProfiles w cfg).1 with
  | error e =>
    have heqI : (GetAWSProfiles w { cfg with Interactive := b }).1 = .error e := heq
    simp [SelectProfile, heq, heqI, hev, Except.map]
  | ok ps =>
    have heqI : (GetAWSProfiles w { cfg with Interactive := b }).1 = .ok ps := heq
    match ps with
    | [] => simp [SelectProfile, heq, heqI, hev, Except.map]
    | [p] => simp [SelectProfile, heq, heqI, hev, Except.map]
    | p1 :: p2 :: t =>
      simp only [SelectProfile, heq, heqI, hev]
      cases hpl : (promptLoop (p1 :: p2 :: t) Event.promptProfile stdin).1 with
      | error e => simp [hpl, Except.map]
      | ok p => simp [hpl, Except.map]

theorem SelectCluster_interactive (w : World) (stdin : List String) (cfg : Config) (b : Bool) :
    SelectCluster w stdin { cfg with Interactive := b } =
      ((SelectCluster w stdin cfg).1.map (fun c => { c with Interactive := b }),
       (SelectCluster w stdin cfg).2.1, (SelectCluster w stdin cfg).2.2) := by
  have hev : (ListEKSClusters w { cfg with Interactive := b }).2 =
      (ListEKSClusters w cfg).2 := rfl
  cases heq : (ListEKSClusters w cfg).1 with
  | error e =>
    have heqI : (ListEKSClusters w { cfg with Interactive := b }).1 = .error e := heq
    simp [SelectCluster, heq, heqI, hev, Except.map]
  | ok cs =>
    have heqI : (ListEKSClusters w { cfg with Interactive := b }).1 = .ok cs := heq
    match cs with
    | [] => simp [SelectCluster, heq, heqI, hev, Except.map]
    | [c] => simp [SelectCluster, heq, heqI, hev, Except.map]
    | c1 :: c2 :: t =>
      simp only [SelectCluster, heq, heqI, hev]
      cases hpl : (promptLoop (c1 :: c2 :: t) Event.promptCluster stdin).1 with
      | error e => simp [hpl, Except.map]
      | ok c => simp [hpl, Except.map]

theorem resolveProfileStep_interactive (w : World) (stdin : List String) (cfg : Config)
    (b : Bool) :
    resolveProfileStep w stdin { cfg with Interactive := b } =
      ((resolveProfileStep w stdin cfg).1.map (fun c => { c with Interactive := b }),
       (resolveProfileStep w stdin cfg).2.1, (resolveProfileStep w stdin cfg).2.2) := by
  unfold resolveProfileStep
  by_cases hp : cfg.Profile = ""
  · rw [if_pos (show ({ cfg with Interactive := b } : Config).Profile = "" from hp),
        if_pos hp]
    exact SelectProfile_interactive w stdin cfg b
  · rw [if_neg (show ¬({ cfg with Interactive := b } : Config).Profile = "" from hp),
        if_neg hp]
    simp [Except.map]

theorem resolveClusterStep_interactive (w : World) (stdin : List String) (cfg : Config)
    (b : Bool) :
    resolveClusterStep w stdin { cfg with Interactive := b } =
      ((resolveClusterStep w stdin cfg).1.map (fun c => { c with Interactive := b }),
       (resolveClusterStep w stdin cfg).2.1, (resolveClusterStep w stdin cfg).2.2) := by
  unfold resolveClusterStep
  by_cases hc : cfg.Cluster = ""
  · rw [if_pos (show ({ cfg with Interactive := b } : Config).Cluster = "" from hc),
        if_pos hc]
    exact SelectCluster_interactive w stdin cfg b
  · rw [if_neg (show ¬({ cfg with Interactive := b } : Config).Cluster = "" from hc),
        if_neg hc]
    simp [Except.map]

theorem Run_interactive (w : World) (stdin : List String) (cfg : Config) (b : Bool) :
    Run w stdin { cfg with Interactive := b } =
      ⟨(Run w stdin cfg).result, { (Run w stdin cfg).config with Interactive := b },
       (Run w stdin cfg).events⟩ := by
  have hst : (resolveProfileStep w stdin { cfg with Interactive := b }).2.1 =
      (resolveProfileStep w stdin cfg).2.1 := by rw [resolveProfileStep_interactive]
  have hlog : ∀ (v : Bool) (c : Config),
      loginStep w v { c with Interactive := b } = loginStep w v c := fun v c => rfl
  have hupdc : ∀ c : Config,
      UpdateKubeconfig w { c with Interactive := b } = UpdateKubeconfig w c := fun c => rfl
  have hverc : ∀ c : Config,
      VerifyConnection w { c with Interactive := b } = VerifyConnection w c := fun c => rfl
  have hsumc : ∀ c : Config,
      ShowSummary { c with Interactive := b } = ShowSummary c := fun c => rfl
  cases hd : (CheckDependencies w).1 with
  | error e =>
    rw [run_eq_dep_err w stdin _ e hd, run_eq_dep_err w stdin cfg e hd]
  | ok u =>
    cases u
    cases hp : (resolveProfileStep w stdin cfg).1 with
    | error e =>
      have hpI : (resolveProfileStep w stdin { cfg with Interactive := b }).1 = .error e := by
        rw [resolveProfileStep_interactive]
        simp [hp, Except.map]
      rw [run_eq_profile_err w stdin _ e hd hpI, run_eq_profile_err w stdin cfg e hd hp]
      simp [runEvPrefix1, resolveProfileStep_interactive]
    | ok cfg1 =>
      have hpI : (resolveProfileStep w stdin { cfg with Interactive := b }).1 =
          .ok { cfg1 with Interactive := b } := by
        rw [resolveProfileStep_interactive]
        simp [hp, Except.map]
      cases hl : (loginStep w w.stsOk cfg1).1 with
      | error e =>
        have hlI : (loginStep w w.stsOk { cfg1 with Interactive := b }).1 = .error e := by
          rw [hlog]
          exact hl
        rw [run_eq_login_err w stdin _ _ e hd hpI hlI,
            run_eq_login_err w stdin cfg cfg1 e hd hp hl]
        simp [runEvPrefix3, runEvPrefix2, runEvPrefix1, resolveProfileStep_interactive,
          CheckSSOSession, hlog]
      | ok u =>
        cases u
        have hlI : (loginStep w w.stsOk { cfg1 with Interactive := b }).1 = .ok () := by
          rw [hlog]
          exact hl
        cases hc : (resolveClusterStep w (resolveProfileStep w stdin cfg).2.1 cfg1).1 with
        | error e =>
          have hcI : (resolveClusterStep w
              (resolveProfileStep w stdin { cfg with Interactive := b }).2.1
              { cfg1 with Interactive := b }).1 = .error e := by
            rw [hst, resolveClusterStep_interactive]
            simp [hc, Except.map]
          rw [run_eq_cluster_err w stdin _ _ e hd hpI hlI hcI,
              run_eq_cluster_err w stdin cfg cfg1 e hd hp hl hc]
          simp only [runEvPrefix4, runEvPrefix3, runEvPrefix2, runEvPrefix1, hst,
            resolveProfileStep_interactive, resolveClusterStep_interactive,
            CheckSSOSession, hlog]
        | ok cfg2 =>
          have hcI : (resolveClusterStep w
              (resolveProfileStep w stdin { cfg with Interactive := b }).2.1
              { cfg1 with Interactive := b }).1 = .ok { cfg2 with Interactive := b } := by
            rw [hst, resolveClusterStep_interactive]
            simp [hc, Except.map]
          cases hu : (UpdateKubeconfig w cfg2).1 with
          | error e =>
            have huI : (UpdateKubeconfig w { cfg2 with Interactive := b }).1 = .error e := by
              rw [hupdc]
              exact hu
            rw [run_eq_update_err w stdin _ _ _ e hd hpI hlI hcI huI,
                run_eq_update_err w stdin cfg cfg1 cfg2 e hd hp hl hc hu]
            simp only [runEvPrefix5, runEvPrefix4, runEvPrefix3, runEvPrefix2, runEvPrefix1,
              hst, resolveProfileStep_interactive, resolveClusterStep_interactive,
              CheckSSOSession, hlog, hupdc]
          | ok u =>
            cases u
            have huI : (UpdateKubeconfig w { cfg2 with Interactive := b }).1 = .ok () := by
              rw [hupdc]
              exact hu
            rw [run_eq_success w stdin _ _ _ hd hpI hlI hcI huI,
                run_eq_success w stdin cfg cfg1 cfg2 hd hp hl hc hu]
            simp only [runEvPrefix5, runEvPrefix4, runEvPrefix3, runEvPrefix2, runEvPrefix1,
              hst, resolveProfileStep_interactive, resolveClusterStep_interactive,
              CheckSSOSession, hlog, hupdc, hverc, hsumc]

/-- C9: the interactive-mode flag has no effect on behaviour: two runs
identical except for the interactive flag perform the same events
(subprocesses and prompts), produce the same result and exit code, and
resolve the same profile, region and cluster. -/
theorem claim_C9 (w : World) (stdin : List String) (profile region cluster : String)
    (skipSSO i1 i2 : Bool) :
    (Run w stdin (configFromFlags profile region cluster skipSSO i1)).result =
      (Run w stdin (configFromFlags profile region cluster skipSSO i2)).result ∧
    (Run w stdin (configFromFlags profile region cluster skipSSO i1)).events =
      (Run w stdin (configFromFlags profile region cluster skipSSO i2)).events ∧
    (Run w stdin (configFromFlags profile region cluster skipSSO i1)).config.Profile =
      (Run w stdin (configFromFlags profile region cluster skipSSO i2)).config.Profile ∧
    (Run w stdin (configFromFlags profile region cluster skipSSO i1)).config.Region =
      (Run w stdin (configFromFlags profile region cluster skipSSO i2)).config.Region ∧
    (Run w stdin (configFromFlags profile region cluster skipSSO i1)).config.Cluster =
      (Run w stdin (configFromFlags profile region cluster skipSSO i2)).config.Cluster ∧
    mainExitCode w stdin (configFromFlags profile region cluster skipSSO i1) =
      mainExitCode w stdin (configFromFlags profile region cluster skipSSO i2) := by
  have h1 : configFromFlags profile region cluster skipSSO i1 =
      { configFromFlags profile region cluster skipSSO true with Interactive := i1 } := rfl
  have h2 : configFromFlags profile region cluster skipSSO i2 =
      { configFromFlags profile region cluster skipSSO true with Interactive := i2 } := rfl
  rw [h1, h2, Run_interactive w stdin (configFromFlags profile region cluster skipSSO true) i1,
      Run_interactive w stdin (configFromFlags profile region cluster skipSSO true) i2]
  refine ⟨rfl, rfl, rfl, rfl, rfl, ?_⟩
  unfold mainExitCode
  rw [Run_interactive w stdin (configFromFlags profile region cluster skipSSO true) i1,
      Run_interactive w stdin (configFromFlags profile region cluster skipSSO true) i2]

end EKSLogin
